import Mathlib

/-!
# Autoscaling CLI plugin: binding-configuration workflow and JSON client

A shallow embedding of `plugin/plugin.go` (the two URL builders
`getCCQueryURL` and `getBindingURL` and the workflow `RunWithError`,
together with the part of Go's `net/url` they call) and of
`plugin/json_client.go` (the method `JSONClient.Do`).

Conventions of the embedding:

* a Go `string` is a Lean `String`, a Go `int` is an `Int` (the workflow
  only assigns and compares integers, it does no arithmetic on them);
* a Go `error` is represented by its message (the result of `Error()`),
  and a nilable `error` by `Option String`, `none` being `nil`;
* the interfaces `jsonClient` and `httpClient` are transition functions on
  an explicit client state; the calls made through them are recorded in
  order.
-/

namespace Plugin

/-! ## Data model (plugin.go, lines 21-55 and 153-158) -/

/-- The struct `AutoscalingBinding` of plugin.go. -/
structure AutoscalingBinding where
  AppGuid : String
  MinInstances : Int
  MaxInstances : Int
  CPUMinThreshold : Int
  CPUMaxThreshold : Int
  Enabled : Bool
  deriving DecidableEq, Repr

/-- The struct `Flags` of plugin.go. -/
structure Flags where
  MinInstances : Int
  MaxInstances : Int
  CPUMinThreshold : Int
  CPUMaxThreshold : Int
  deriving DecidableEq, Repr

/-- The innermost anonymous struct of `ccResponse`: `Metadata struct { GUID string }`. -/
structure CCMetadata where
  GUID : String
  deriving DecidableEq, Repr

/-- One element of `ccResponse.Resources`. -/
structure CCResource where
  Metadata : CCMetadata
  deriving DecidableEq, Repr

/-- The anonymous struct `ccResponse` declared inside `RunWithError`. -/
structure CCResponse where
  Resources : List CCResource
  deriving DecidableEq, Repr

/-- The fields of `plugin_models.GetService_Model` that the workflow reads. -/
structure GetService_Model where
  Guid : String
  DashboardUrl : String
  deriving DecidableEq, Repr

/-- The field of `plugin_models.GetAppModel` that the workflow reads. -/
structure GetAppModel where
  Guid : String
  deriving DecidableEq, Repr

/-! ## The `jsonClient` interface -/

/-- What `RunWithError` passes as `responseData`: `nil`, `&ccResponse` or
`&autoscalingBinding`. -/
inductive ResponseSlot where
  | none
  | ccResponse
  | autoscalingBinding
  deriving DecidableEq, Repr

/-- The type of the variable a response slot points to. -/
@[reducible] def ResponseSlot.Data : ResponseSlot → Type
  | .none => Unit
  | .ccResponse => CCResponse
  | .autoscalingBinding => AutoscalingBinding

/-- The arguments of one call of `jsonClient.Do`, as the mock's
`DoCall.Receives` records them. `RequestData` is `none` for a nil payload and
`some b` for a pointer to the binding `b`. -/
structure DoCall where
  Method : String
  URL : String
  RequestData : Option AutoscalingBinding
  ResponseData : ResponseSlot
  deriving DecidableEq, Repr

/-- An implementation of the interface `jsonClient` with internal state `σ`:
`Do` receives the four arguments and returns the next state, the returned
`error` and the content of the response variable after the call. -/
structure jsonClient (σ : Type) where
  Do : σ → String → String → Option AutoscalingBinding →
    (k : ResponseSlot) → σ × Option String × k.Data

/-- The struct `CLIDependencies` of plugin.go. -/
structure CLIDependencies (σ : Type) where
  AccessToken : String
  AppName : String
  ServiceName : String
  Service : GetService_Model
  APIEndpoint : String
  App : GetAppModel
  JSONClient : jsonClient σ

/-! ## The part of Go's `net/url` used by the URL builders

`url.Parse` is taken as a parameter of the builders: the claims only
distinguish an endpoint that parses from one that does not. What the
builders do with a parsed URL (`URL.String`, `Values.Encode`,
`QueryEscape`) is modelled after the Go standard library. Go strings are
byte strings; the embedding works on the UTF-8 bytes of a Lean `String`. -/

/-- The unexported struct `url.Userinfo`. -/
structure Userinfo where
  username : String
  password : String
  passwordSet : Bool
  deriving DecidableEq, Repr

/-- The struct `url.URL`. -/
structure URL where
  Scheme : String
  Opaque : String
  User : Option Userinfo
  Host : String
  Path : String
  RawPath : String
  OmitHost : Bool
  ForceQuery : Bool
  RawQuery : String
  Fragment : String
  RawFragment : String
  deriving DecidableEq, Repr

/-- The escaping modes of `net/url` (the unexported type `encoding`). -/
inductive encoding where
  | encodePath
  | encodePathSegment
  | encodeHost
  | encodeZone
  | encodeUserPassword
  | encodeQueryComponent
  | encodeFragment
  deriving DecidableEq, Repr

/-- The bytes of a Go string: the UTF-8 encoding of the text. -/
def goBytes (s : String) : List Nat :=
  s.data.flatMap (fun c => (String.utf8EncodeChar c).map UInt8.toNat)

/-- Membership of a byte in a set of ASCII characters, for the `switch c`
statements of `net/url`. -/
def byteIn (c : Nat) (set : String) : Bool :=
  set.data.any (fun ch => ch.toNat == c)

/-- The function `shouldEscape(c byte, mode encoding) bool` of `net/url`. -/
def shouldEscape (c : Nat) (mode : encoding) : Bool :=
  if ('a'.toNat ≤ c ∧ c ≤ 'z'.toNat) ∨ ('A'.toNat ≤ c ∧ c ≤ 'Z'.toNat)
      ∨ ('0'.toNat ≤ c ∧ c ≤ '9'.toNat) then false
  else if (mode = .encodeHost ∨ mode = .encodeZone)
      ∧ byteIn c "!$&\x27()*+,;=:[]<>\"" then false
  else if byteIn c "-_.~" then false
  else if byteIn c "$&+,/:;=?@" then
    match mode with
    | .encodePath => c == '?'.toNat
    | .encodePathSegment => byteIn c "/;,?"
    | .encodeUserPassword => byteIn c "@/?:"
    | .encodeQueryComponent => true
    | .encodeFragment => false
    | _ => true
  else if mode = .encodeFragment ∧ byteIn c "!()*" then false
  else true

/-- The table `upperhex` of `net/url`, indexed by a nibble. -/
def upperhex (n : Nat) : Char :=
  "0123456789ABCDEF".data.getD n '0'

/-- What the second loop of `escape` writes for one input byte. -/
def escapeByte (mode : encoding) (c : Nat) : List Char :=
  if c = ' '.toNat ∧ mode = .encodeQueryComponent then ['+']
  else if shouldEscape c mode then ['%', upperhex (c / 16), upperhex (c % 16)]
  else [Char.ofNat c]

/-- The function `escape(s string, mode encoding) string` of `net/url`: every
byte is replaced by what `escapeByte` writes for it (when no byte needs
escaping this is `s` itself, the case Go returns early). -/
def escape (s : String) (mode : encoding) : String :=
  ⟨(goBytes s).flatMap (escapeByte mode)⟩

/-- The function `url.QueryEscape`. -/
def QueryEscape (s : String) : String :=
  escape s .encodeQueryComponent

/-- The function `ishex` of `net/url`. -/
def ishex (c : Nat) : Bool :=
  ('0'.toNat ≤ c ∧ c ≤ '9'.toNat) ∨ ('a'.toNat ≤ c ∧ c ≤ 'f'.toNat)
    ∨ ('A'.toNat ≤ c ∧ c ≤ 'F'.toNat)

/-- The function `unhex` of `net/url`. -/
def unhex (c : Nat) : Nat :=
  if '0'.toNat ≤ c ∧ c ≤ '9'.toNat then c - '0'.toNat
  else if 'a'.toNat ≤ c ∧ c ≤ 'f'.toNat then c - 'a'.toNat + 10
  else if 'A'.toNat ≤ c ∧ c ≤ 'F'.toNat then c - 'A'.toNat + 10
  else 0

/-- The function `unescape(s string, mode encoding) (string, error)` of
`net/url` on the bytes of `s`, for the modes `EscapedPath` and
`EscapedFragment` call it with (`encodePath`, `encodeFragment`); `none` is a
non-nil error. A `%` must be followed by two hex digits and decodes to one
byte; a `+` is kept, as in every mode but `encodeQueryComponent`. -/
def unescape : List Nat → Option (List Nat)
  | [] => some []
  | c :: rest =>
    if c = '%'.toNat then
      match rest with
      | a :: b :: rest' =>
        if ishex a ∧ ishex b then
          (unescape rest').map (fun t => (unhex a * 16 + unhex b) :: t)
        else none
      | _ => none
    else (unescape rest).map (fun t => c :: t)

/-- The function `validEncoded(s string, mode encoding) bool` of `net/url`. -/
def validEncoded (s : String) (mode : encoding) : Bool :=
  (goBytes s).all (fun c =>
    byteIn c "!$&\x27()*+,;=:@" || byteIn c "[]" || c == '%'.toNat
      || !shouldEscape c mode)

/-- The method `(*URL).EscapedPath`. -/
def URL.EscapedPath (u : URL) : String :=
  if u.RawPath ≠ "" ∧ validEncoded u.RawPath .encodePath
      ∧ unescape (goBytes u.RawPath) = some (goBytes u.Path) then u.RawPath
  else if u.Path = "*" then "*"
  else escape u.Path .encodePath

/-- The method `(*URL).EscapedFragment`. -/
def URL.EscapedFragment (u : URL) : String :=
  if u.RawFragment ≠ "" ∧ validEncoded u.RawFragment .encodeFragment
      ∧ unescape (goBytes u.RawFragment) = some (goBytes u.Fragment)
  then u.RawFragment
  else escape u.Fragment .encodeFragment

/-- The method `(*Userinfo).String` on a non-nil receiver. -/
def Userinfo.String (u : Userinfo) : String :=
  let s := escape u.username .encodeUserPassword
  if u.passwordSet then s ++ ":" ++ escape u.password .encodeUserPassword else s

/-- The method `(*URL).String`: the URL reassembled in one of the forms
`scheme:opaque?query#fragment` and
`scheme://userinfo@host/path?query#fragment`. The successive values of `buf`
are the content of the string builder. -/
def URL.String (u : URL) : String :=
  let buf := ""
  let buf := if u.Scheme ≠ "" then buf ++ u.Scheme ++ ":" else buf
  let buf :=
    if u.Opaque ≠ "" then buf ++ u.Opaque
    else
      let buf :=
        if u.Scheme ≠ "" ∨ u.Host ≠ "" ∨ u.User.isSome then
          if u.OmitHost ∧ u.Host = "" ∧ u.User.isNone then buf
          else
            let buf :=
              if u.Host ≠ "" ∨ u.Path ≠ "" ∨ u.User.isSome then buf ++ "//" else buf
            let buf :=
              match u.User with
              | some ui => buf ++ ui.String ++ "@"
              | none => buf
            if u.Host ≠ "" then buf ++ escape u.Host .encodeHost else buf
        else buf
      let path := u.EscapedPath
      let buf :=
        if path ≠ "" ∧ path.data.head? ≠ some '/' ∧ u.Host ≠ "" then buf ++ "/" else buf
      let buf :=
        if buf.length = 0 ∧ (path.data.takeWhile (fun c => c ≠ '/')).contains ':'
        then buf ++ "./" else buf
      buf ++ path
  let buf := if u.ForceQuery ∨ u.RawQuery ≠ "" then buf ++ "?" ++ u.RawQuery else buf
  if u.Fragment ≠ "" then buf ++ "#" ++ u.EscapedFragment else buf

/-- The type `url.Values` (`map[string][]string`), as the list of its
entries, one per key. -/
abbrev Values := List (String × List String)

/-- The method `Values.Encode`: the keys in sorted order, each value of a key
written as `key=value` with both sides query-escaped, the pairs joined by
`&`. -/
def Values.Encode (v : Values) : String :=
  if v.length = 0 then ""
  else
    let keys := (v.map Prod.fst).insertionSort (fun a b => a ≤ b)
    keys.foldl (fun buf k =>
      let vs := (v.lookup k).getD []
      let keyEscaped := QueryEscape k
      vs.foldl (fun buf val =>
        let buf := if buf.length > 0 then buf ++ "&" else buf
        buf ++ keyEscaped ++ "=" ++ QueryEscape val) buf) ""

/-! ## The URL builders (plugin.go, lines 126-151) -/

/-- The function `getCCQueryURL` of plugin.go; `Parse` is `url.Parse`. The Go
result `(s, nil)` is `.ok s` and `("", err)` is `.error` with the message of
`err`. -/
def getCCQueryURL (Parse : String → Except String URL)
    (apiEndpoint appGUID serviceInstanceGUID : String) : Except String String :=
  match Parse apiEndpoint with
  | .error _ => .error ("invalid API URL from cli: " ++ apiEndpoint)
  | .ok serviceBindingsURL =>
    let serviceBindingsURL := { serviceBindingsURL with Path := "/v2/service_bindings" }
    let serviceBindingsURL := { serviceBindingsURL with
      RawQuery := Values.Encode
        [("q", ["app_guid:" ++ appGUID,
                "service_instance_guid:" ++ serviceInstanceGUID])] }
    .ok serviceBindingsURL.String

/-- The function `getBindingURL` of plugin.go; `Parse` is `url.Parse`. -/
def getBindingURL (Parse : String → Except String URL)
    (fullDashboardURL bindingGUID : String) : Except String String :=
  match Parse fullDashboardURL with
  | .error _ =>
    .error ("invalid dashboard URL from service instance: " ++ fullDashboardURL)
  | .ok dashboardURL =>
    let baseURL := dashboardURL.Scheme ++ "://" ++ dashboardURL.Host
    .ok (baseURL ++ "/api/bindings/" ++ bindingGUID)

/-! ## The workflow (plugin.go, lines 160-234) -/

/-- What a run of `RunWithError` leaves behind: the returned `error`
(`none` for `nil`), the calls of `JSONClient.Do` it made, in order, and the
state of the client after the last of them. -/
structure RunResult (σ : Type) where
  err : Option String
  calls : List DoCall
  client : σ

/-- Lines 199-213 of `RunWithError`: the four `if flags.X > 0` assignments,
in source order. -/
def applyFlags (flags : Flags) (autoscalingBinding : AutoscalingBinding) :
    AutoscalingBinding :=
  let autoscalingBinding :=
    if flags.MinInstances > 0 then
      { autoscalingBinding with MinInstances := flags.MinInstances }
    else autoscalingBinding
  let autoscalingBinding :=
    if flags.MaxInstances > 0 then
      { autoscalingBinding with MaxInstances := flags.MaxInstances }
    else autoscalingBinding
  let autoscalingBinding :=
    if flags.CPUMinThreshold > 0 then
      { autoscalingBinding with CPUMinThreshold := flags.CPUMinThreshold }
    else autoscalingBinding
  let autoscalingBinding :=
    if flags.CPUMaxThreshold > 0 then
      { autoscalingBinding with CPUMaxThreshold := flags.CPUMaxThreshold }
    else autoscalingBinding
  autoscalingBinding

/-- The method `(*Plugin).RunWithError` of plugin.go. `Parse` is `url.Parse`
and `client` the state of `dependencies.JSONClient` when the run starts. -/
def RunWithError {σ : Type} (Parse : String → Except String URL)
    (dependencies : CLIDependencies σ) (client : σ) (flags : Flags) : RunResult σ :=
  let appGUID := dependencies.App.Guid
  -- get from cloud controller
  match getCCQueryURL Parse dependencies.APIEndpoint appGUID dependencies.Service.Guid with
  | .error err => ⟨some err, [], client⟩
  | .ok serviceBindingsURL =>
    let call0 : DoCall := ⟨"GET", serviceBindingsURL, none, .ccResponse⟩
    match dependencies.JSONClient.Do client "GET" serviceBindingsURL none .ccResponse with
    | (client, some err, _) =>
      ⟨some ("couldn't retrieve service binding: " ++ err), [call0], client⟩
    | (client, none, ccResponse) =>
      if h : ccResponse.Resources.length ≠ 1 then
        ⟨some ("couldn't find service binding for " ++ dependencies.AppName ++ " to "
          ++ dependencies.ServiceName), [call0], client⟩
      else
        -- get from autoscaling
        match getBindingURL Parse dependencies.Service.DashboardUrl
            (ccResponse.Resources.get ⟨0, by omega⟩).Metadata.GUID with
        | .error err => ⟨some err, [call0], client⟩
        | .ok fullURL =>
          let call1 : DoCall := ⟨"GET", fullURL, none, .autoscalingBinding⟩
          match dependencies.JSONClient.Do client "GET" fullURL none .autoscalingBinding with
          | (client, some err, _) =>
            ⟨some ("autoscaling API: " ++ err), [call0, call1], client⟩
          | (client, none, autoscalingBinding) =>
            let autoscalingBinding := applyFlags flags autoscalingBinding
            if autoscalingBinding.MinInstances > autoscalingBinding.MaxInstances then
              ⟨some "min instances must be <= max instances", [call0, call1], client⟩
            else if autoscalingBinding.CPUMinThreshold
                > autoscalingBinding.CPUMaxThreshold then
              ⟨some "CPU min threshold must be <= CPU max threshold", [call0, call1], client⟩
            else
              -- autoscaling response does not include the app guid, so we have to set it
              let autoscalingBinding := { autoscalingBinding with AppGuid := appGUID }
              let autoscalingBinding := { autoscalingBinding with Enabled := true }
              -- post to autoscaling
              let call2 : DoCall := ⟨"POST", fullURL, some autoscalingBinding, .none⟩
              match dependencies.JSONClient.Do client "POST" fullURL
                  (some autoscalingBinding) .none with
              | (client, some err, _) =>
                ⟨some ("autoscaling API: " ++ err), [call0, call1, call2], client⟩
              | (client, none, _) => ⟨none, [call0, call1, call2], client⟩

/-! ## A scripted client, after mocks/json_client.go -/

/-- One entry of the script: the error the call returns and what its
`ResponseJSON` decodes to in a `ccResponse` and in an `AutoscalingBinding`. -/
structure MockCall where
  Returns : Option String
  ccResponse : CCResponse
  autoscalingBinding : AutoscalingBinding

/-- The value a scripted call leaves in the response variable. -/
def MockCall.data (call : MockCall) : (k : ResponseSlot) → k.Data
  | .none => ()
  | .ccResponse => call.ccResponse
  | .autoscalingBinding => call.autoscalingBinding

/-- A client whose state is the number of calls made so far (`DoCallCount`)
and whose answer to call number `i` is entry `i` of `DoCalls`; a call past
the end of the script gets zero values and no error. -/
def mockJSONClient (DoCalls : List MockCall) : jsonClient Nat where
  Do := fun DoCallCount _ _ _ k =>
    let call := DoCalls.getD DoCallCount
      ⟨none, ⟨[]⟩, ⟨"", 0, 0, 0, 0, false⟩⟩
    (DoCallCount + 1, call.Returns, call.data k)

/-! ## The scenario of plugin_test.go -/

/-- The results of `url.Parse` on the URLs of the test-suite scenario and on
three variations of them (an API endpoint with a fragment, a dashboard URL
with another path and a query); any other string is treated like the
test-suite's `%%%`, which `url.Parse` rejects. -/
def testParse (rawURL : String) : Except String URL :=
  if rawURL = "https://cloudcontroller.example.com" then
    .ok ⟨"https", "", none, "cloudcontroller.example.com", "", "", false, false, "", "", ""⟩
  else if rawURL = "https://cloudcontroller.example.com#top" then
    .ok ⟨"https", "", none, "cloudcontroller.example.com", "", "", false, false, "", "top", ""⟩
  else if rawURL = "http://autoscaling.example.com/something-that-doesnot-matter" then
    .ok ⟨"http", "", none, "autoscaling.example.com", "/something-that-doesnot-matter", "",
      false, false, "", "", ""⟩
  else if rawURL = "http://autoscaling.example.com/dashboard?tab=rules" then
    .ok ⟨"http", "", none, "autoscaling.example.com", "/dashboard", "",
      false, false, "tab=rules", "", ""⟩
  else .error "invalid URL escape"

/-- The script of the test-suite's `BeforeEach`: the control plane answers
with one binding, the autoscaling API with the binding (3, 7, 20, 80,
disabled), and the POST succeeds. -/
def testDoCalls : List MockCall :=
  [ ⟨none, ⟨[⟨⟨"some-service-binding-guid"⟩⟩]⟩, ⟨"", 0, 0, 0, 0, false⟩⟩,
    ⟨none, ⟨[]⟩, ⟨"", 3, 7, 20, 80, false⟩⟩,
    ⟨none, ⟨[]⟩, ⟨"", 0, 0, 0, 0, false⟩⟩ ]

/-- The `dependencies` of the test-suite's `BeforeEach`, with a scripted client. -/
def testDependencies (DoCalls : List MockCall) : CLIDependencies Nat where
  AccessToken := "bearer some-token"
  AppName := "app-name"
  ServiceName := "service-name"
  Service := ⟨"some-service-instance-guid",
    "http://autoscaling.example.com/something-that-doesnot-matter"⟩
  APIEndpoint := "https://cloudcontroller.example.com"
  App := ⟨"some-app-guid"⟩
  JSONClient := mockJSONClient DoCalls

/-- The control-plane query URL of the test-suite scenario. -/
def testCCURL : String :=
  "https://cloudcontroller.example.com/v2/service_bindings?q=app_guid%3Asome-app-guid&q=service_instance_guid%3Asome-service-instance-guid"

/-- The autoscaling binding URL of the test-suite scenario. -/
def testBindingURL : String :=
  "http://autoscaling.example.com/api/bindings/some-service-binding-guid"

/-! ## The typed JSON client (json_client.go)

`json.Marshal`, `http.NewRequest` and the JSON decoder are parameters of
`JSONClient.Do`; the request payload has an arbitrary type `α` and the
response variable an arbitrary type `β`. -/

/-- The type `http.Header`, a map from header name to the values of the
header; a name that is absent from the map has no values. -/
abbrev Header := String → List String

/-- The method `Header.Set`: the values of `key` are replaced by the single
value `value`. (Go first brings `key` into canonical form; the two names
`JSONClient.Do` sets, `Content-Type` and `Authorization`, are canonical.) -/
def Header.Set (h : Header) (key value : String) : Header :=
  fun k => if k = key then [value] else h k

/-- The method `Header.Values`: all values of `key`. -/
def Header.Values (h : Header) (key : String) : List String :=
  h key

/-- The fields of `http.Request` that `http.NewRequest` fills from its
arguments and that `JSONClient.Do` touches; `Body` is the content of the body
reader, `none` for a nil reader. -/
structure Request where
  Method : String
  URL : URL
  Header : Header
  Body : Option String

/-- The fields of `http.Response` that `JSONClient.Do` reads; `Body` is the
content of the body stream. -/
structure Response where
  StatusCode : Int
  Status : String
  Body : String
  deriving DecidableEq, Repr

/-- What `httpClient.Do` returns, a pair `(*http.Response, error)`: either a
response with a nil error, or a non-nil error, with or without a response
next to it. (A nil response with a nil error is what `http.Client` never
returns.) -/
inductive RoundTrip where
  | ok (response : Response)
  | failed (err : String) (response : Option Response)
  deriving DecidableEq, Repr

/-- An implementation of the interface `httpClient` with internal state `τ`. -/
structure httpClient (τ : Type) where
  Do : τ → Request → τ × RoundTrip

/-- The struct `JSONClient` of json_client.go. -/
structure JSONClient (τ : Type) where
  HTTPClient : httpClient τ
  AccessToken : String

/-- The constant `http.StatusOK`. -/
def StatusOK : Int := 200

/-- What a call of `JSONClient.Do` leaves behind: the returned `error`, the
requests handed to `HTTPClient.Do`, in order, the response body given to the
JSON decoder (`none` when the decoder was not run), the content of the
response variable after the call (`none` when `responseData` was nil) and the
state of the HTTP client. -/
structure DoResult (τ β : Type) where
  err : Option String
  sent : List Request
  decoded : Option String
  responseData : Option β
  client : τ

/-- Lines 17-25 of `JSONClient.Do`: the reader over the marshalled payload,
nil (`none`) when `requestData` is nil. -/
def requestBody {α : Type} (Marshal : α → Except String String)
    (requestData : Option α) : Except String (Option String) :=
  match requestData with
  | some data =>
    match Marshal data with
    | .error err => .error err
    | .ok requestBytes => .ok (some requestBytes)
  | none => .ok none

/-- The method `JSONClient.Do` of json_client.go. `Marshal` is `json.Marshal`,
`NewRequest` is `http.NewRequest` and `Decode body v` is
`json.NewDecoder(body).Decode` into a variable that holds `v`: it returns the
new content of the variable and the error. `requestData` and `responseData`
are `none` for nil; `responseData = some v` is a pointer to a variable that
holds `v`. `client` is the state of `c.HTTPClient` when the call starts. -/
def JSONClient.Do {τ α β : Type} (c : JSONClient τ)
    (Marshal : α → Except String String)
    (NewRequest : String → String → Option String → Except String Request)
    (Decode : String → β → β × Option String)
    (client : τ) (method url : String) (requestData : Option α)
    (responseData : Option β) : DoResult τ β :=
  match requestBody Marshal requestData with
  | .error err => ⟨some err, [], none, responseData, client⟩ -- not tested
  | .ok requestBodyReader =>
    match NewRequest method url requestBodyReader with
    | .error err => ⟨some err, [], none, responseData, client⟩
    | .ok request =>
      let request :=
        if requestData.isSome then
          { request with Header := request.Header.Set "Content-Type" "application/json" }
        else request
      let request :=
        { request with Header := request.Header.Set "Authorization" c.AccessToken }
      match c.HTTPClient.Do client request with
      | (client, .failed err _) => ⟨some err, [request], none, responseData, client⟩
      | (client, .ok response) =>
        if response.StatusCode ≠ StatusOK then
          ⟨some ("unexpected response code: " ++ response.Status), [request], none,
            responseData, client⟩
        else
          match responseData with
          | some v =>
            match Decode response.Body v with
            | (v, some err) =>
              ⟨some ("couldn't parse response: " ++ err), [request], some response.Body,
                some v, client⟩
            | (v, none) => ⟨none, [request], some response.Body, some v, client⟩
          | none => ⟨none, [request], none, none, client⟩

/-! ## The scenario of json_client_test.go -/

/-- The function `http.NewRequest` on the URLs of json_client_test.go: for the
three URLs that parse, a request with the given method and body, the parsed
URL and an empty header; an error for `http://example.com/%%%` and for any
other string. -/
def testNewRequest (method url : String) (body : Option String) : Except String Request :=
  if url = "/some/url" then
    .ok ⟨method, ⟨"", "", none, "", "/some/url", "", false, false, "", "", ""⟩,
      fun _ => [], body⟩
  else if url = "http://example.com/some/url" then
    .ok ⟨method, ⟨"http", "", none, "example.com", "/some/url", "", false, false, "", "", ""⟩,
      fun _ => [], body⟩
  else if url = "some-url" then
    .ok ⟨method, ⟨"", "", none, "", "some-url", "", false, false, "", "", ""⟩,
      fun _ => [], body⟩
  else .error "invalid URL escape"

/-- The HTTP client of the test-suite, after mocks/http_client.go: its state
is `CallCount`, and call number `i` returns entry `i` of the script; a call
past the end of the script returns an error. -/
def mockHTTPClient (Returns : List RoundTrip) : httpClient Nat where
  Do := fun CallCount _ =>
    (CallCount + 1, Returns.getD CallCount (.failed "no response" none))

/-- The `jsonClient` of the test-suite's `BeforeEach`: the token `some-token`
and a scripted HTTP client. -/
def testJSONClient (Returns : List RoundTrip) : JSONClient Nat :=
  ⟨mockHTTPClient Returns, "some-token"⟩

/-- The payload `{"bananas": "tasty"}` of the test-suite, already marshalled:
a stand-in for `json.Marshal` on payloads given by their JSON text. -/
def testMarshal (data : String) : Except String String :=
  .ok data

/-- A stand-in for the JSON decoder on the two bodies of the test-suite: the
body `{{{` is rejected with the decoder's message and leaves the variable as
it was, any other body is stored in the variable as it is. -/
def testDecode (body : String) (v : String) : String × Option String :=
  if body = "\x7b\x7b\x7b" then
    (v, some "invalid character \x27\x7b\x27 looking for beginning of object key string")
  else (body, none)

/-! ## Shape of a run -/

/-- A run in which both GETs succeed: the control-plane GET returns exactly
one resource and the autoscaling GET returns `fetched`. What remains is the
validation of the post-override binding and the POST. -/
theorem RunWithError_of_fetch {σ : Type} (Parse : String → Except String URL)
    (deps : CLIDependencies σ) (client : σ) (flags : Flags)
    (ccURL fullURL : String) (s1 s2 : σ) (cc : CCResponse) (res : CCResource)
    (fetched : AutoscalingBinding)
    (h0 : getCCQueryURL Parse deps.APIEndpoint deps.App.Guid deps.Service.Guid = .ok ccURL)
    (h1 : deps.JSONClient.Do client "GET" ccURL none .ccResponse = (s1, none, cc))
    (h2 : cc.Resources = [res])
    (h3 : getBindingURL Parse deps.Service.DashboardUrl res.Metadata.GUID = .ok fullURL)
    (h4 : deps.JSONClient.Do s1 "GET" fullURL none .autoscalingBinding = (s2, none, fetched)) :
    RunWithError Parse deps client flags =
      if (applyFlags flags fetched).MinInstances > (applyFlags flags fetched).MaxInstances then
        ⟨some "min instances must be <= max instances",
          [⟨"GET", ccURL, none, .ccResponse⟩, ⟨"GET", fullURL, none, .autoscalingBinding⟩], s2⟩
      else if (applyFlags flags fetched).CPUMinThreshold
          > (applyFlags flags fetched).CPUMaxThreshold then
        ⟨some "CPU min threshold must be <= CPU max threshold",
          [⟨"GET", ccURL, none, .ccResponse⟩, ⟨"GET", fullURL, none, .autoscalingBinding⟩], s2⟩
      else
        ⟨((deps.JSONClient.Do s2 "POST" fullURL
            (some { applyFlags flags fetched with AppGuid := deps.App.Guid, Enabled := true })
            .none).2.1).map (fun e => "autoscaling API: " ++ e),
          [⟨"GET", ccURL, none, .ccResponse⟩, ⟨"GET", fullURL, none, .autoscalingBinding⟩,
           ⟨"POST", fullURL,
            some { applyFlags flags fetched with AppGuid := deps.App.Guid, Enabled := true },
            .none⟩],
          (deps.JSONClient.Do s2 "POST" fullURL
            (some { applyFlags flags fetched with AppGuid := deps.App.Guid, Enabled := true })
            .none).1⟩ := by
  obtain ⟨rs⟩ := cc
  simp only at h2
  subst h2
  unfold RunWithError
  simp only [h0, h1]
  simp [h3, h4]
  split
  · rfl
  · split
    · rfl
    · split
      · next h => simp [h]
      · next h => simp [h]


/-- Every run has one of four shapes: no call (the query URL could not be
built), the control-plane GET alone, the two GETs, or the two GETs followed
by the POST of a validated binding; the first three end in an error. -/
theorem RunWithError_cases {σ : Type} (Parse : String → Except String URL)
    (deps : CLIDependencies σ) (client : σ) (flags : Flags) :
    ((RunWithError Parse deps client flags).calls = []
        ∧ (RunWithError Parse deps client flags).err ≠ none)
    ∨ (∃ ccURL,
        getCCQueryURL Parse deps.APIEndpoint deps.App.Guid deps.Service.Guid = .ok ccURL
        ∧ (RunWithError Parse deps client flags).calls = [⟨"GET", ccURL, none, .ccResponse⟩]
        ∧ (RunWithError Parse deps client flags).err ≠ none)
    ∨ (∃ ccURL guid fullURL,
        getCCQueryURL Parse deps.APIEndpoint deps.App.Guid deps.Service.Guid = .ok ccURL
        ∧ getBindingURL Parse deps.Service.DashboardUrl guid = .ok fullURL
        ∧ (RunWithError Parse deps client flags).calls =
            [⟨"GET", ccURL, none, .ccResponse⟩, ⟨"GET", fullURL, none, .autoscalingBinding⟩]
        ∧ (RunWithError Parse deps client flags).err ≠ none)
    ∨ (∃ ccURL guid fullURL fetched,
        getCCQueryURL Parse deps.APIEndpoint deps.App.Guid deps.Service.Guid = .ok ccURL
        ∧ getBindingURL Parse deps.Service.DashboardUrl guid = .ok fullURL
        ∧ (applyFlags flags fetched).MinInstances ≤ (applyFlags flags fetched).MaxInstances
        ∧ (applyFlags flags fetched).CPUMinThreshold ≤ (applyFlags flags fetched).CPUMaxThreshold
        ∧ (RunWithError Parse deps client flags).calls =
            [⟨"GET", ccURL, none, .ccResponse⟩, ⟨"GET", fullURL, none, .autoscalingBinding⟩,
             ⟨"POST", fullURL,
              some { applyFlags flags fetched with AppGuid := deps.App.Guid, Enabled := true },
              .none⟩]) := by
  generalize hr : RunWithError Parse deps client flags = r
  unfold RunWithError at hr
  simp only [] at hr
  split at hr
  · subst hr; left; simp
  · next ccURL h0 =>
    split at hr
    · subst hr; right; left; exact ⟨ccURL, h0, by simp, by simp⟩
    · next cl cc h1 =>
      split at hr
      · subst hr; right; left; exact ⟨ccURL, h0, by simp, by simp⟩
      · split at hr
        · subst hr; right; left; exact ⟨ccURL, h0, by simp, by simp⟩
        · next fullURL h3 =>
          split at hr
          · subst hr; right; right; left; exact ⟨ccURL, _, fullURL, h0, h3, by simp, by simp⟩
          · next cl2 fetched h4 =>
            split at hr
            · subst hr; right; right; left; exact ⟨ccURL, _, fullURL, h0, h3, by simp, by simp⟩
            · split at hr
              · subst hr; right; right; left
                exact ⟨ccURL, _, fullURL, h0, h3, by simp, by simp⟩
              · next hmin hcpu =>
                right; right; right
                refine ⟨ccURL, _, fullURL, fetched, h0, h3, by omega, by omega, ?_⟩
                split at hr <;> subst hr <;> rfl

/-! ## The claims -/

set_option maxRecDepth 100000 in
/-- C1, counterexample: the flag `MinInstances = -1` is non-zero, yet on the
test-suite scenario the run succeeds and the binding it POSTs carries the
fetched `MinInstances = 3`, not the flag. -/
theorem C1_negative_flag_counterexample :
    (⟨-1, 0, 0, 0⟩ : Flags).MinInstances ≠ 0
    ∧ (RunWithError testParse (testDependencies testDoCalls) 0 ⟨-1, 0, 0, 0⟩).err = none
    ∧ (RunWithError testParse (testDependencies testDoCalls) 0 ⟨-1, 0, 0, 0⟩).calls.get? 2
        = some ⟨"POST", testBindingURL, some ⟨"some-app-guid", 3, 7, 20, 80, true⟩, .none⟩ := by
  refine ⟨by decide, ?_, ?_⟩ <;> rfl

/-- C1, amended: when both GETs succeed and `fetched` is the binding the
autoscaling GET returned, every POST of the run carries a binding whose four
override fields each equal the flag when the flag is greater than zero and
the fetched value otherwise (flag zero or negative), field by field. -/
theorem C1_overrides_applied {σ : Type} (Parse : String → Except String URL)
    (deps : CLIDependencies σ) (client : σ) (flags : Flags)
    (ccURL fullURL : String) (s1 s2 : σ) (cc : CCResponse) (res : CCResource)
    (fetched : AutoscalingBinding) (call : DoCall)
    (h0 : getCCQueryURL Parse deps.APIEndpoint deps.App.Guid deps.Service.Guid = .ok ccURL)
    (h1 : deps.JSONClient.Do client "GET" ccURL none .ccResponse = (s1, none, cc))
    (h2 : cc.Resources = [res])
    (h3 : getBindingURL Parse deps.Service.DashboardUrl res.Metadata.GUID = .ok fullURL)
    (h4 : deps.JSONClient.Do s1 "GET" fullURL none .autoscalingBinding = (s2, none, fetched))
    (hcall : call ∈ (RunWithError Parse deps client flags).calls)
    (hpost : call.Method = "POST") :
    ∃ p, call.RequestData = some p
      ∧ p.MinInstances
          = (if flags.MinInstances > 0 then flags.MinInstances else fetched.MinInstances)
      ∧ p.MaxInstances
          = (if flags.MaxInstances > 0 then flags.MaxInstances else fetched.MaxInstances)
      ∧ p.CPUMinThreshold
          = (if flags.CPUMinThreshold > 0 then flags.CPUMinThreshold
              else fetched.CPUMinThreshold)
      ∧ p.CPUMaxThreshold
          = (if flags.CPUMaxThreshold > 0 then flags.CPUMaxThreshold
              else fetched.CPUMaxThreshold) := by
  rw [RunWithError_of_fetch Parse deps client flags ccURL fullURL s1 s2 cc res fetched
    h0 h1 h2 h3 h4] at hcall
  split at hcall
  · simp at hcall
    rcases hcall with h | h <;> (rw [h] at hpost; simp at hpost)
  · split at hcall
    · simp at hcall
      rcases hcall with h | h <;> (rw [h] at hpost; simp at hpost)
    · simp at hcall
      rcases hcall with h | h | h
      · rw [h] at hpost; simp at hpost
      · rw [h] at hpost; simp at hpost
      · refine ⟨_, by rw [h], ?_⟩
        simp only [applyFlags]
        refine ⟨?_, ?_, ?_, ?_⟩ <;> (repeat' split) <;> rfl

set_option maxRecDepth 100000 in
/-- C1, witness: the test-suite scenario with the flags (9, 30, 10, 90). -/
theorem C1_overrides_applied_witness :
    ∃ p, (DoCall.mk "POST" testBindingURL (some ⟨"some-app-guid", 9, 30, 10, 90, true⟩)
          .none).RequestData = some p
      ∧ p.MinInstances = (if (9 : Int) > 0 then 9 else 3)
      ∧ p.MaxInstances = (if (30 : Int) > 0 then 30 else 7)
      ∧ p.CPUMinThreshold = (if (10 : Int) > 0 then 10 else 20)
      ∧ p.CPUMaxThreshold = (if (90 : Int) > 0 then 90 else 80) :=
  C1_overrides_applied testParse (testDependencies testDoCalls) 0 ⟨9, 30, 10, 90⟩
    testCCURL testBindingURL 1 2 ⟨[⟨⟨"some-service-binding-guid"⟩⟩]⟩
    ⟨⟨"some-service-binding-guid"⟩⟩ ⟨"", 3, 7, 20, 80, false⟩
    ⟨"POST", testBindingURL, some ⟨"some-app-guid", 9, 30, 10, 90, true⟩, .none⟩
    (by rfl) (by rfl) (by rfl) (by rfl) (by rfl) (by decide) (by rfl)

/-- C2: when the control-plane query returns exactly one binding and the
autoscaling GET succeeds with `fetched`, a post-override `MinInstances` above
`MaxInstances` ends the run with "min instances must be <= max instances";
otherwise a post-override `CPUMinThreshold` above `CPUMaxThreshold` ends it
with "CPU min threshold must be <= CPU max threshold"; in both cases the
calls made are the two GETs and nothing else, so no POST is issued. -/
theorem C2_validation_rejects {σ : Type} (Parse : String → Except String URL)
    (deps : CLIDependencies σ) (client : σ) (flags : Flags)
    (ccURL fullURL : String) (s1 s2 : σ) (cc : CCResponse) (res : CCResource)
    (fetched : AutoscalingBinding)
    (h0 : getCCQueryURL Parse deps.APIEndpoint deps.App.Guid deps.Service.Guid = .ok ccURL)
    (h1 : deps.JSONClient.Do client "GET" ccURL none .ccResponse = (s1, none, cc))
    (h2 : cc.Resources = [res])
    (h3 : getBindingURL Parse deps.Service.DashboardUrl res.Metadata.GUID = .ok fullURL)
    (h4 : deps.JSONClient.Do s1 "GET" fullURL none .autoscalingBinding = (s2, none, fetched)) :
    ((applyFlags flags fetched).MinInstances > (applyFlags flags fetched).MaxInstances →
        (RunWithError Parse deps client flags).err
            = some "min instances must be <= max instances"
        ∧ (RunWithError Parse deps client flags).calls
            = [⟨"GET", ccURL, none, .ccResponse⟩,
               ⟨"GET", fullURL, none, .autoscalingBinding⟩])
    ∧ (¬ (applyFlags flags fetched).MinInstances > (applyFlags flags fetched).MaxInstances →
        (applyFlags flags fetched).CPUMinThreshold
          > (applyFlags flags fetched).CPUMaxThreshold →
        (RunWithError Parse deps client flags).err
            = some "CPU min threshold must be <= CPU max threshold"
        ∧ (RunWithError Parse deps client flags).calls
            = [⟨"GET", ccURL, none, .ccResponse⟩,
               ⟨"GET", fullURL, none, .autoscalingBinding⟩]) := by
  rw [RunWithError_of_fetch Parse deps client flags ccURL fullURL s1 s2 cc res fetched
    h0 h1 h2 h3 h4]
  constructor
  · intro hmin
    rw [if_pos hmin]
    exact ⟨rfl, rfl⟩
  · intro hmin hcpu
    rw [if_neg hmin, if_pos hcpu]
    exact ⟨rfl, rfl⟩

set_option maxRecDepth 100000 in
/-- C2, witness: the two validation tests of the test-suite, flags
(35, 34, 0, 0) and (0, 0, 75, 24) on the fetched binding (3, 7, 20, 80). -/
theorem C2_validation_rejects_witness :
    ((RunWithError testParse (testDependencies testDoCalls) 0 ⟨35, 34, 0, 0⟩).err
        = some "min instances must be <= max instances"
      ∧ (RunWithError testParse (testDependencies testDoCalls) 0 ⟨35, 34, 0, 0⟩).calls
        = [⟨"GET", testCCURL, none, .ccResponse⟩,
           ⟨"GET", testBindingURL, none, .autoscalingBinding⟩])
    ∧ ((RunWithError testParse (testDependencies testDoCalls) 0 ⟨0, 0, 75, 24⟩).err
        = some "CPU min threshold must be <= CPU max threshold"
      ∧ (RunWithError testParse (testDependencies testDoCalls) 0 ⟨0, 0, 75, 24⟩).calls
        = [⟨"GET", testCCURL, none, .ccResponse⟩,
           ⟨"GET", testBindingURL, none, .autoscalingBinding⟩]) :=
  ⟨(C2_validation_rejects testParse (testDependencies testDoCalls) 0 ⟨35, 34, 0, 0⟩
      testCCURL testBindingURL 1 2 ⟨[⟨⟨"some-service-binding-guid"⟩⟩]⟩
      ⟨⟨"some-service-binding-guid"⟩⟩ ⟨"", 3, 7, 20, 80, false⟩
      (by rfl) (by rfl) (by rfl) (by rfl) (by rfl)).1 (by decide),
   (C2_validation_rejects testParse (testDependencies testDoCalls) 0 ⟨0, 0, 75, 24⟩
      testCCURL testBindingURL 1 2 ⟨[⟨⟨"some-service-binding-guid"⟩⟩]⟩
      ⟨⟨"some-service-binding-guid"⟩⟩ ⟨"", 3, 7, 20, 80, false⟩
      (by rfl) (by rfl) (by rfl) (by rfl) (by rfl)).2 (by decide) (by decide)⟩

/-- C3: when the control-plane GET succeeds with a result whose `Resources`
has a length other than one, the run returns "couldn't find service binding
for <AppName> to <ServiceName>" and the control-plane GET is the only call it
makes. -/
theorem C3_resources_not_one {σ : Type} (Parse : String → Except String URL)
    (deps : CLIDependencies σ) (client : σ) (flags : Flags)
    (ccURL : String) (s1 : σ) (cc : CCResponse)
    (h0 : getCCQueryURL Parse deps.APIEndpoint deps.App.Guid deps.Service.Guid = .ok ccURL)
    (h1 : deps.JSONClient.Do client "GET" ccURL none .ccResponse = (s1, none, cc))
    (hlen : cc.Resources.length ≠ 1) :
    (RunWithError Parse deps client flags).err
        = some ("couldn't find service binding for " ++ deps.AppName ++ " to "
            ++ deps.ServiceName)
    ∧ (RunWithError Parse deps client flags).calls = [⟨"GET", ccURL, none, .ccResponse⟩] := by
  unfold RunWithError
  simp only [h0, h1]
  simp [hlen]

set_option maxRecDepth 100000 in
/-- C3, witness: the control plane answers with two bindings and with none. -/
theorem C3_resources_not_one_witness :
    ((RunWithError testParse
        (testDependencies [⟨none, ⟨[⟨⟨"guid-1"⟩⟩, ⟨⟨"guid-2"⟩⟩]⟩, ⟨"", 0, 0, 0, 0, false⟩⟩])
        0 ⟨9, 30, 10, 90⟩).err
        = some ("couldn't find service binding for " ++ "app-name" ++ " to " ++ "service-name")
      ∧ (RunWithError testParse
        (testDependencies [⟨none, ⟨[⟨⟨"guid-1"⟩⟩, ⟨⟨"guid-2"⟩⟩]⟩, ⟨"", 0, 0, 0, 0, false⟩⟩])
        0 ⟨9, 30, 10, 90⟩).calls = [⟨"GET", testCCURL, none, .ccResponse⟩])
    ∧ ((RunWithError testParse
        (testDependencies [⟨none, ⟨[]⟩, ⟨"", 0, 0, 0, 0, false⟩⟩]) 0 ⟨9, 30, 10, 90⟩).err
        = some ("couldn't find service binding for " ++ "app-name" ++ " to " ++ "service-name")
      ∧ (RunWithError testParse
        (testDependencies [⟨none, ⟨[]⟩, ⟨"", 0, 0, 0, 0, false⟩⟩]) 0 ⟨9, 30, 10, 90⟩).calls
        = [⟨"GET", testCCURL, none, .ccResponse⟩]) :=
  ⟨C3_resources_not_one testParse
      (testDependencies [⟨none, ⟨[⟨⟨"guid-1"⟩⟩, ⟨⟨"guid-2"⟩⟩]⟩, ⟨"", 0, 0, 0, 0, false⟩⟩])
      0 ⟨9, 30, 10, 90⟩ testCCURL 1 ⟨[⟨⟨"guid-1"⟩⟩, ⟨⟨"guid-2"⟩⟩]⟩
      (by rfl) (by rfl) (by decide),
   C3_resources_not_one testParse
      (testDependencies [⟨none, ⟨[]⟩, ⟨"", 0, 0, 0, 0, false⟩⟩])
      0 ⟨9, 30, 10, 90⟩ testCCURL 1 ⟨[]⟩ (by rfl) (by rfl) (by decide)⟩

/-- C4: when both GETs succeed, the fetched binding has
`MinInstances <= MaxInstances` and `CPUMinThreshold <= CPUMaxThreshold`, and
all four flags are zero, the run makes the POST, and the binding it submits is
the fetched binding with `AppGuid` and `Enabled` replaced and every other
field unchanged. -/
theorem C4_zero_flags_keep_binding {σ : Type} (Parse : String → Except String URL)
    (deps : CLIDependencies σ) (client : σ)
    (ccURL fullURL : String) (s1 s2 : σ) (cc : CCResponse) (res : CCResource)
    (fetched : AutoscalingBinding)
    (h0 : getCCQueryURL Parse deps.APIEndpoint deps.App.Guid deps.Service.Guid = .ok ccURL)
    (h1 : deps.JSONClient.Do client "GET" ccURL none .ccResponse = (s1, none, cc))
    (h2 : cc.Resources = [res])
    (h3 : getBindingURL Parse deps.Service.DashboardUrl res.Metadata.GUID = .ok fullURL)
    (h4 : deps.JSONClient.Do s1 "GET" fullURL none .autoscalingBinding = (s2, none, fetched))
    (hmin : fetched.MinInstances ≤ fetched.MaxInstances)
    (hcpu : fetched.CPUMinThreshold ≤ fetched.CPUMaxThreshold) :
    (RunWithError Parse deps client ⟨0, 0, 0, 0⟩).calls
      = [⟨"GET", ccURL, none, .ccResponse⟩,
         ⟨"GET", fullURL, none, .autoscalingBinding⟩,
         ⟨"POST", fullURL,
          some { fetched with AppGuid := deps.App.Guid, Enabled := true }, .none⟩] := by
  rw [RunWithError_of_fetch Parse deps client ⟨0, 0, 0, 0⟩ ccURL fullURL s1 s2 cc res fetched
    h0 h1 h2 h3 h4]
  have hflags : applyFlags ⟨0, 0, 0, 0⟩ fetched = fetched := by
    simp [applyFlags]
  rw [hflags, if_neg (by omega), if_neg (by omega)]

set_option maxRecDepth 100000 in
/-- C4, witness: the test "just enables the service without changing any
binding parameters": fetched (3, 7, 20, 80, disabled), no flags. -/
theorem C4_zero_flags_keep_binding_witness :
    (RunWithError testParse (testDependencies testDoCalls) 0 ⟨0, 0, 0, 0⟩).calls
      = [⟨"GET", testCCURL, none, .ccResponse⟩,
         ⟨"GET", testBindingURL, none, .autoscalingBinding⟩,
         ⟨"POST", testBindingURL, some ⟨"some-app-guid", 3, 7, 20, 80, true⟩, .none⟩] :=
  C4_zero_flags_keep_binding testParse (testDependencies testDoCalls) 0
    testCCURL testBindingURL 1 2 ⟨[⟨⟨"some-service-binding-guid"⟩⟩]⟩
    ⟨⟨"some-service-binding-guid"⟩⟩ ⟨"", 3, 7, 20, 80, false⟩
    (by rfl) (by rfl) (by rfl) (by rfl) (by rfl) (by decide) (by decide)

/-- C5: in every run, whatever the client answers and whatever the flags,
each POST carries a binding whose `AppGuid` is `dependencies.App.Guid` and
whose `Enabled` is true. -/
theorem C5_posted_binding_forced_fields {σ : Type} (Parse : String → Except String URL)
    (deps : CLIDependencies σ) (client : σ) (flags : Flags) (call : DoCall)
    (hcall : call ∈ (RunWithError Parse deps client flags).calls)
    (hpost : call.Method = "POST") :
    ∃ p, call.RequestData = some p ∧ p.AppGuid = deps.App.Guid ∧ p.Enabled = true := by
  rcases RunWithError_cases Parse deps client flags with
    ⟨hc, _⟩ | ⟨_, _, hc, _⟩ | ⟨_, _, _, _, _, hc, _⟩ | ⟨_, _, _, fetched, _, _, _, _, hc⟩
  · rw [hc] at hcall; simp at hcall
  · rw [hc] at hcall; simp at hcall
    rw [hcall] at hpost; simp at hpost
  · rw [hc] at hcall; simp at hcall
    rcases hcall with h | h <;> (rw [h] at hpost; simp at hpost)
  · rw [hc] at hcall; simp at hcall
    rcases hcall with h | h | h
    · rw [h] at hpost; simp at hpost
    · rw [h] at hpost; simp at hpost
    · exact ⟨_, by rw [h], rfl, rfl⟩

set_option maxRecDepth 100000 in
/-- C5, witness: the autoscaling API answers with a disabled binding that
carries a foreign app GUID; the POSTed binding has the resolved app GUID and
is enabled. -/
theorem C5_posted_binding_forced_fields_witness :
    ∃ p, (DoCall.mk "POST" testBindingURL (some ⟨"some-app-guid", 9, 30, 10, 90, true⟩)
          .none).RequestData = some p
      ∧ p.AppGuid = "some-app-guid" ∧ p.Enabled = true :=
  C5_posted_binding_forced_fields testParse
    (testDependencies
      [ ⟨none, ⟨[⟨⟨"some-service-binding-guid"⟩⟩]⟩, ⟨"", 0, 0, 0, 0, false⟩⟩,
        ⟨none, ⟨[]⟩, ⟨"another-app-guid", 3, 7, 20, 80, false⟩⟩ ])
    0 ⟨9, 30, 10, 90⟩
    ⟨"POST", testBindingURL, some ⟨"some-app-guid", 9, 30, 10, 90, true⟩, .none⟩
    (by decide) (by rfl)

/-- C6: in every run, whatever binding the autoscaling API returned and
whatever the flags, each POST carries a binding with
`MinInstances <= MaxInstances` and `CPUMinThreshold <= CPUMaxThreshold`. -/
theorem C6_posted_binding_invariant {σ : Type} (Parse : String → Except String URL)
    (deps : CLIDependencies σ) (client : σ) (flags : Flags) (call : DoCall)
    (hcall : call ∈ (RunWithError Parse deps client flags).calls)
    (hpost : call.Method = "POST") :
    ∃ p, call.RequestData = some p ∧ p.MinInstances ≤ p.MaxInstances
      ∧ p.CPUMinThreshold ≤ p.CPUMaxThreshold := by
  rcases RunWithError_cases Parse deps client flags with
    ⟨hc, _⟩ | ⟨_, _, hc, _⟩ | ⟨_, _, _, _, _, hc, _⟩ | ⟨_, _, _, fetched, _, _, hmin, hcpu, hc⟩
  · rw [hc] at hcall; simp at hcall
  · rw [hc] at hcall; simp at hcall
    rw [hcall] at hpost; simp at hpost
  · rw [hc] at hcall; simp at hcall
    rcases hcall with h | h <;> (rw [h] at hpost; simp at hpost)
  · rw [hc] at hcall; simp at hcall
    rcases hcall with h | h | h
    · rw [h] at hpost; simp at hpost
    · rw [h] at hpost; simp at hpost
    · exact ⟨{ applyFlags flags fetched with AppGuid := deps.App.Guid, Enabled := true },
        by rw [h], hmin, hcpu⟩

set_option maxRecDepth 100000 in
/-- C6, witness: the fetched binding (7, 3, 80, 20) breaks both orderings;
the flags (0, 30, 0, 90) repair them and the POSTed binding is
(7, 30, 80, 90). -/
theorem C6_posted_binding_invariant_witness :
    ∃ p, (DoCall.mk "POST" testBindingURL (some ⟨"some-app-guid", 7, 30, 80, 90, true⟩)
          .none).RequestData = some p
      ∧ p.MinInstances ≤ p.MaxInstances ∧ p.CPUMinThreshold ≤ p.CPUMaxThreshold :=
  C6_posted_binding_invariant testParse
    (testDependencies
      [ ⟨none, ⟨[⟨⟨"some-service-binding-guid"⟩⟩]⟩, ⟨"", 0, 0, 0, 0, false⟩⟩,
        ⟨none, ⟨[]⟩, ⟨"", 7, 3, 80, 20, false⟩⟩ ])
    0 ⟨0, 30, 0, 90⟩
    ⟨"POST", testBindingURL, some ⟨"some-app-guid", 7, 30, 80, 90, true⟩, .none⟩
    (by decide) (by rfl)

/-- C7: an error `e` returned by the control-plane GET makes the run return
"couldn't retrieve service binding: " followed by `e`; an error `e` returned
by the autoscaling GET, or by the autoscaling POST, makes it return
"autoscaling API: " followed by `e`. -/
theorem C7_remote_failures_wrapped {σ : Type} (Parse : String → Except String URL)
    (deps : CLIDependencies σ) (client : σ) (flags : Flags) :
    (∀ (ccURL : String) (s1 : σ) (e : String) (x : CCResponse),
      getCCQueryURL Parse deps.APIEndpoint deps.App.Guid deps.Service.Guid = .ok ccURL →
      deps.JSONClient.Do client "GET" ccURL none .ccResponse = (s1, some e, x) →
      (RunWithError Parse deps client flags).err
        = some ("couldn't retrieve service binding: " ++ e))
    ∧ (∀ (ccURL fullURL : String) (s1 s2 : σ) (cc : CCResponse) (res : CCResource)
        (e : String) (x : AutoscalingBinding),
      getCCQueryURL Parse deps.APIEndpoint deps.App.Guid deps.Service.Guid = .ok ccURL →
      deps.JSONClient.Do client "GET" ccURL none .ccResponse = (s1, none, cc) →
      cc.Resources = [res] →
      getBindingURL Parse deps.Service.DashboardUrl res.Metadata.GUID = .ok fullURL →
      deps.JSONClient.Do s1 "GET" fullURL none .autoscalingBinding = (s2, some e, x) →
      (RunWithError Parse deps client flags).err = some ("autoscaling API: " ++ e))
    ∧ (∀ (ccURL fullURL : String) (s1 s2 s3 : σ) (cc : CCResponse) (res : CCResource)
        (fetched : AutoscalingBinding) (e : String),
      getCCQueryURL Parse deps.APIEndpoint deps.App.Guid deps.Service.Guid = .ok ccURL →
      deps.JSONClient.Do client "GET" ccURL none .ccResponse = (s1, none, cc) →
      cc.Resources = [res] →
      getBindingURL Parse deps.Service.DashboardUrl res.Metadata.GUID = .ok fullURL →
      deps.JSONClient.Do s1 "GET" fullURL none .autoscalingBinding = (s2, none, fetched) →
      (applyFlags flags fetched).MinInstances ≤ (applyFlags flags fetched).MaxInstances →
      (applyFlags flags fetched).CPUMinThreshold
        ≤ (applyFlags flags fetched).CPUMaxThreshold →
      deps.JSONClient.Do s2 "POST" fullURL
        (some { applyFlags flags fetched with AppGuid := deps.App.Guid, Enabled := true })
        .none = (s3, some e, ()) →
      (RunWithError Parse deps client flags).err = some ("autoscaling API: " ++ e)) := by
  refine ⟨?_, ?_, ?_⟩
  · intro ccURL s1 e x h0 h1
    unfold RunWithError
    simp only [h0, h1]
  · intro ccURL fullURL s1 s2 cc res e x h0 h1 h2 h3 h4
    obtain ⟨rs⟩ := cc
    simp only at h2
    subst h2
    unfold RunWithError
    simp only [h0, h1]
    simp [h3, h4]
  · intro ccURL fullURL s1 s2 s3 cc res fetched e h0 h1 h2 h3 h4 hmin hcpu h5
    rw [RunWithError_of_fetch Parse deps client flags ccURL fullURL s1 s2 cc res fetched
      h0 h1 h2 h3 h4, if_neg (by omega), if_neg (by omega)]
    simp only [h5, Option.map_some']

set_option maxRecDepth 100000 in
/-- C7, witness: the three failure tests of the test-suite: the first, the
second and the third call of the script return an error. -/
theorem C7_remote_failures_wrapped_witness :
    (RunWithError testParse
        (testDependencies [⟨some "cc call failed", ⟨[]⟩, ⟨"", 0, 0, 0, 0, false⟩⟩])
        0 ⟨9, 30, 10, 90⟩).err
      = some ("couldn't retrieve service binding: " ++ "cc call failed")
    ∧ (RunWithError testParse
        (testDependencies
          [ ⟨none, ⟨[⟨⟨"some-service-binding-guid"⟩⟩]⟩, ⟨"", 0, 0, 0, 0, false⟩⟩,
            ⟨some "autoscaling GET call failed", ⟨[]⟩, ⟨"", 3, 7, 20, 80, false⟩⟩ ])
        0 ⟨9, 30, 10, 90⟩).err
      = some ("autoscaling API: " ++ "autoscaling GET call failed")
    ∧ (RunWithError testParse
        (testDependencies
          [ ⟨none, ⟨[⟨⟨"some-service-binding-guid"⟩⟩]⟩, ⟨"", 0, 0, 0, 0, false⟩⟩,
            ⟨none, ⟨[]⟩, ⟨"", 3, 7, 20, 80, false⟩⟩,
            ⟨some "autoscaling POST call failed", ⟨[]⟩, ⟨"", 0, 0, 0, 0, false⟩⟩ ])
        0 ⟨9, 30, 10, 90⟩).err
      = some ("autoscaling API: " ++ "autoscaling POST call failed") :=
  ⟨(C7_remote_failures_wrapped testParse
      (testDependencies [⟨some "cc call failed", ⟨[]⟩, ⟨"", 0, 0, 0, 0, false⟩⟩])
      0 ⟨9, 30, 10, 90⟩).1 testCCURL 1 "cc call failed" ⟨[]⟩ (by rfl) (by rfl),
   (C7_remote_failures_wrapped testParse
      (testDependencies
        [ ⟨none, ⟨[⟨⟨"some-service-binding-guid"⟩⟩]⟩, ⟨"", 0, 0, 0, 0, false⟩⟩,
          ⟨some "autoscaling GET call failed", ⟨[]⟩, ⟨"", 3, 7, 20, 80, false⟩⟩ ])
      0 ⟨9, 30, 10, 90⟩).2.1 testCCURL testBindingURL 1 2
      ⟨[⟨⟨"some-service-binding-guid"⟩⟩]⟩ ⟨⟨"some-service-binding-guid"⟩⟩
      "autoscaling GET call failed" ⟨"", 3, 7, 20, 80, false⟩
      (by rfl) (by rfl) (by rfl) (by rfl) (by rfl),
   (C7_remote_failures_wrapped testParse
      (testDependencies
        [ ⟨none, ⟨[⟨⟨"some-service-binding-guid"⟩⟩]⟩, ⟨"", 0, 0, 0, 0, false⟩⟩,
          ⟨none, ⟨[]⟩, ⟨"", 3, 7, 20, 80, false⟩⟩,
          ⟨some "autoscaling POST call failed", ⟨[]⟩, ⟨"", 0, 0, 0, 0, false⟩⟩ ])
      0 ⟨9, 30, 10, 90⟩).2.2 testCCURL testBindingURL 1 2 3
      ⟨[⟨⟨"some-service-binding-guid"⟩⟩]⟩ ⟨⟨"some-service-binding-guid"⟩⟩
      ⟨"", 3, 7, 20, 80, false⟩ "autoscaling POST call failed"
      (by rfl) (by rfl) (by rfl) (by rfl) (by rfl) (by decide) (by decide) (by rfl)⟩

/-- C8: the calls of a run are an initial segment of
[GET query URL, GET binding URL, POST binding URL]: the first call, if any,
is a GET of the URL `getCCQueryURL` built, the second, if any, a GET of a URL
`getBindingURL` built, both without request payload; the third, if any, is a
POST to the URL of the second GET that carries a binding and no response
slot. There are never more than three calls, and a run that returns no error
made exactly these three. -/
theorem C8_call_sequence {σ : Type} (Parse : String → Except String URL)
    (deps : CLIDependencies σ) (client : σ) (flags : Flags) :
    ∃ (ccURL fullURL : String) (p : AutoscalingBinding),
      (RunWithError Parse deps client flags).calls
          <+: [⟨"GET", ccURL, none, .ccResponse⟩,
               ⟨"GET", fullURL, none, .autoscalingBinding⟩,
               ⟨"POST", fullURL, some p, .none⟩]
      ∧ (RunWithError Parse deps client flags).calls.length ≤ 3
      ∧ (1 ≤ (RunWithError Parse deps client flags).calls.length →
          getCCQueryURL Parse deps.APIEndpoint deps.App.Guid deps.Service.Guid = .ok ccURL)
      ∧ (2 ≤ (RunWithError Parse deps client flags).calls.length →
          ∃ guid, getBindingURL Parse deps.Service.DashboardUrl guid = .ok fullURL)
      ∧ ((RunWithError Parse deps client flags).err = none →
          (RunWithError Parse deps client flags).calls
            = [⟨"GET", ccURL, none, .ccResponse⟩,
               ⟨"GET", fullURL, none, .autoscalingBinding⟩,
               ⟨"POST", fullURL, some p, .none⟩]) := by
  rcases RunWithError_cases Parse deps client flags with
    ⟨hc, he⟩ | ⟨ccURL, h0, hc, he⟩ | ⟨ccURL, guid, fullURL, h0, h3, hc, he⟩
      | ⟨ccURL, guid, fullURL, fetched, h0, h3, _, _, hc⟩
  · refine ⟨"", "", ⟨"", 0, 0, 0, 0, false⟩, ?_, ?_, ?_, ?_, ?_⟩
    · rw [hc]; exact List.nil_prefix
    · rw [hc]; simp
    · rw [hc]; simp
    · rw [hc]; simp
    · intro h; exact absurd h he
  · refine ⟨ccURL, "", ⟨"", 0, 0, 0, 0, false⟩, ?_, ?_, ?_, ?_, ?_⟩
    · rw [hc]; exact ⟨_, rfl⟩
    · rw [hc]; simp
    · intro _; exact h0
    · rw [hc]; simp
    · intro h; exact absurd h he
  · refine ⟨ccURL, fullURL, ⟨"", 0, 0, 0, 0, false⟩, ?_, ?_, ?_, ?_, ?_⟩
    · rw [hc]; exact ⟨_, rfl⟩
    · rw [hc]; simp
    · intro _; exact h0
    · intro _; exact ⟨guid, h3⟩
    · intro h; exact absurd h he
  · refine ⟨ccURL, fullURL,
      { applyFlags flags fetched with AppGuid := deps.App.Guid, Enabled := true },
      ?_, ?_, ?_, ?_, ?_⟩
    · rw [hc]
    · rw [hc]; simp
    · intro _; exact h0
    · intro _; exact ⟨guid, h3⟩
    · intro _; exact hc

/-! ## The query URL and the binding URL -/

/-- The bytes of a concatenation are the bytes of its parts, in order. -/
theorem goBytes_append (a b : String) : goBytes (a ++ b) = goBytes a ++ goBytes b := by
  simp [goBytes, String.data_append, List.flatMap_append]

/-- Escaping works byte by byte, so it distributes over concatenation. -/
theorem escape_append (a b : String) (mode : encoding) :
    escape (a ++ b) mode = escape a mode ++ escape b mode := by
  apply String.ext
  simp [escape, goBytes_append, List.flatMap_append, String.data_append]

set_option maxRecDepth 100000 in
/-- Query-escaping `app_guid:<g>` turns the colon into `%3A` and escapes `g`. -/
theorem QueryEscape_app_guid (g : String) :
    QueryEscape ("app_guid:" ++ g) = "app_guid%3A" ++ QueryEscape g := by
  unfold QueryEscape
  rw [escape_append]
  rfl

set_option maxRecDepth 100000 in
/-- Query-escaping `service_instance_guid:<g>` turns the colon into `%3A` and
escapes `g`. -/
theorem QueryEscape_service_instance_guid (g : String) :
    QueryEscape ("service_instance_guid:" ++ g)
      = "service_instance_guid%3A" ++ QueryEscape g := by
  unfold QueryEscape
  rw [escape_append]
  rfl

/-- Encoding the single key `q` with two values gives `q=<a>&q=<b>`, the
values query-escaped and kept in their order. -/
theorem Values_Encode_q (a b : String) :
    Values.Encode [("q", [a, b])] = "q=" ++ QueryEscape a ++ "&q=" ++ QueryEscape b := by
  have hq : QueryEscape "q" = "q" := by decide
  have h2 : ("q=" : String).length = 2 := by decide
  have h3 : ("&q=" : String) = "&" ++ ("q" ++ "=") := by decide
  simp only [Values.Encode]
  simp [List.lookup, hq]
  rw [if_pos (Or.inl (by rw [h2]; omega)), h3]
  simp only [String.append_assoc]

/-- A concatenation that starts with a non-empty string is non-empty. -/
theorem String_append_ne_empty (a b : String) (h : a ≠ "") : a ++ b ≠ "" := by
  intro hab
  apply h
  have := congrArg String.data hab
  simp [String.data_append] at this
  exact String.ext this.1

/-- On an endpoint that parses, `getCCQueryURL` is `URL.String` of the parsed
URL with the path and the query replaced. -/
theorem getCCQueryURL_ok (Parse : String → Except String URL)
    (apiEndpoint appGUID serviceInstanceGUID : String) (u : URL)
    (hparse : Parse apiEndpoint = .ok u) :
    getCCQueryURL Parse apiEndpoint appGUID serviceInstanceGUID
      = .ok (URL.String { u with
          Path := "/v2/service_bindings",
          RawQuery := "q=app_guid%3A" ++ QueryEscape appGUID
            ++ "&q=service_instance_guid%3A" ++ QueryEscape serviceInstanceGUID }) := by
  unfold getCCQueryURL
  simp only [hparse, Values_Encode_q, QueryEscape_app_guid, QueryEscape_service_instance_guid]
  have h1 : ("q=" : String) ++ ("app_guid%3A" ++ QueryEscape appGUID)
      = "q=app_guid%3A" ++ QueryEscape appGUID := by
    rw [← String.append_assoc]; rfl
  have h2 : ("&q=" : String) ++ ("service_instance_guid%3A" ++ QueryEscape serviceInstanceGUID)
      = "&q=service_instance_guid%3A" ++ QueryEscape serviceInstanceGUID := by
    rw [← String.append_assoc]; rfl
  rw [String.append_assoc, String.append_assoc, h2, ← String.append_assoc, h1,
    ← String.append_assoc]


set_option maxRecDepth 100000 in
/-- The path `/v2/service_bindings` needs no escaping. -/
theorem escape_service_bindings_path :
    escape "/v2/service_bindings" .encodePath = "/v2/service_bindings" := by decide

set_option maxRecDepth 100000 in
/-- What `URL.String` writes for a URL with scheme and host, without opaque
part, userinfo and fragment, once its path is `/v2/service_bindings` and its
query is non-empty. -/
theorem URL_String_service_bindings (u : URL) (query : String)
    (hscheme : u.Scheme ≠ "") (hhost : u.Host ≠ "") (hopq : u.Opaque = "")
    (huser : u.User = none) (hfragment : u.Fragment = "")
    (hraw : unescape (goBytes u.RawPath) ≠ some (goBytes "/v2/service_bindings"))
    (hquery : query ≠ "") :
    URL.String { u with Path := "/v2/service_bindings", RawQuery := query }
      = u.Scheme ++ "://" ++ escape u.Host .encodeHost ++ "/v2/service_bindings" ++ "?"
          ++ query := by
  have hpath : URL.EscapedPath { u with Path := "/v2/service_bindings", RawQuery := query }
      = "/v2/service_bindings" := by
    unfold URL.EscapedPath
    simp only []
    rw [if_neg (fun h => hraw h.2.2), if_neg (by decide), escape_service_bindings_path]
  unfold URL.String
  simp only [hpath]
  simp [hscheme, hhost, hopq, huser, hfragment, hquery]
  have hsep : ("://" : String) = ":" ++ "//" := by decide
  rw [hsep, ← String.append_assoc]


set_option maxRecDepth 100000 in
/-- C9, counterexample: an API endpoint with a fragment parses, and the query
URL built from it ends in the fragment, after the query string; it is not
scheme, host, path and query string alone. -/
theorem C9_fragment_counterexample :
    getCCQueryURL testParse "https://cloudcontroller.example.com#top"
        "some-app-guid" "some-service-instance-guid"
      = .ok "https://cloudcontroller.example.com/v2/service_bindings?q=app_guid%3Asome-app-guid&q=service_instance_guid%3Asome-service-instance-guid#top"
    ∧ getCCQueryURL testParse "https://cloudcontroller.example.com#top"
        "some-app-guid" "some-service-instance-guid"
      ≠ .ok ("https" ++ "://" ++ "cloudcontroller.example.com" ++ "/v2/service_bindings"
          ++ "?q=app_guid%3Asome-app-guid&q=service_instance_guid%3Asome-service-instance-guid") := by
  have h : getCCQueryURL testParse "https://cloudcontroller.example.com#top"
        "some-app-guid" "some-service-instance-guid"
      = .ok "https://cloudcontroller.example.com/v2/service_bindings?q=app_guid%3Asome-app-guid&q=service_instance_guid%3Asome-service-instance-guid#top" := by
    rfl
  refine ⟨h, ?_⟩
  rw [h]
  intro hne
  have hs := Except.ok.inj hne
  revert hs
  decide

/-- C9, amended: for an endpoint that parses, `getCCQueryURL` returns the
parsed URL written by `URL.String` with its path replaced by
`/v2/service_bindings` and its query by `q=app_guid%3A<app GUID>` and
`q=service_instance_guid%3A<service-instance GUID>` (in this order, joined by
`&`, the GUIDs query-escaped). When the parsed URL has a non-empty scheme and
host, no opaque part, no userinfo and no fragment, and its raw path is not a
percent-encoded spelling of `/v2/service_bindings`, this is
`<scheme>://<host>/v2/service_bindings?q=...&q=...`, the host escaped as
`URL.String` writes it. For an endpoint that does not parse it returns the
error "invalid API URL from cli: " followed by the endpoint verbatim. -/
theorem C9_query_url (Parse : String → Except String URL)
    (apiEndpoint appGUID serviceInstanceGUID : String) :
    (∀ u, Parse apiEndpoint = .ok u →
      getCCQueryURL Parse apiEndpoint appGUID serviceInstanceGUID
        = .ok (URL.String { u with
            Path := "/v2/service_bindings",
            RawQuery := "q=app_guid%3A" ++ QueryEscape appGUID
              ++ "&q=service_instance_guid%3A" ++ QueryEscape serviceInstanceGUID }))
    ∧ (∀ u, Parse apiEndpoint = .ok u →
      u.Scheme ≠ "" → u.Host ≠ "" → u.Opaque = "" → u.User = none → u.Fragment = "" →
      unescape (goBytes u.RawPath) ≠ some (goBytes "/v2/service_bindings") →
      getCCQueryURL Parse apiEndpoint appGUID serviceInstanceGUID
        = .ok (u.Scheme ++ "://" ++ escape u.Host .encodeHost
            ++ "/v2/service_bindings?q=app_guid%3A" ++ QueryEscape appGUID
            ++ "&q=service_instance_guid%3A" ++ QueryEscape serviceInstanceGUID))
    ∧ (∀ e, Parse apiEndpoint = .error e →
      getCCQueryURL Parse apiEndpoint appGUID serviceInstanceGUID
        = .error ("invalid API URL from cli: " ++ apiEndpoint)) := by
  refine ⟨?_, ?_, ?_⟩
  · intro u hparse
    exact getCCQueryURL_ok Parse apiEndpoint appGUID serviceInstanceGUID u hparse
  · intro u hparse hscheme hhost hopq huser hfragment hraw
    have hquery : "q=app_guid%3A" ++ QueryEscape appGUID
        ++ "&q=service_instance_guid%3A" ++ QueryEscape serviceInstanceGUID ≠ "" := by
      rw [String.append_assoc, String.append_assoc]
      exact String_append_ne_empty _ _ (by decide)
    have hlit : ("/v2/service_bindings?q=app_guid%3A" : String)
        = "/v2/service_bindings" ++ ("?" ++ "q=app_guid%3A") := by decide
    rw [getCCQueryURL_ok Parse apiEndpoint appGUID serviceInstanceGUID u hparse,
      URL_String_service_bindings u _ hscheme hhost hopq huser hfragment hraw hquery, hlit]
    simp only [String.append_assoc]
  · intro e hparse
    unfold getCCQueryURL
    simp only [hparse]

set_option maxRecDepth 100000 in
/-- C9, witness: the API endpoint and GUIDs of the test-suite scenario, and
the endpoint `%%%` of its failure test. -/
theorem C9_query_url_witness :
    getCCQueryURL testParse "https://cloudcontroller.example.com"
        "some-app-guid" "some-service-instance-guid"
      = .ok ("https" ++ "://" ++ escape "cloudcontroller.example.com" .encodeHost
          ++ "/v2/service_bindings?q=app_guid%3A" ++ QueryEscape "some-app-guid"
          ++ "&q=service_instance_guid%3A" ++ QueryEscape "some-service-instance-guid")
    ∧ getCCQueryURL testParse "%%%" "some-app-guid" "some-service-instance-guid"
      = .error ("invalid API URL from cli: " ++ "%%%") :=
  ⟨(C9_query_url testParse "https://cloudcontroller.example.com"
      "some-app-guid" "some-service-instance-guid").2.1
      ⟨"https", "", none, "cloudcontroller.example.com", "", "", false, false, "", "", ""⟩
      (by rfl) (by decide) (by decide) (by rfl) (by rfl) (by rfl) (by decide),
   (C9_query_url testParse "%%%" "some-app-guid" "some-service-instance-guid").2.2
      "invalid URL escape" (by rfl)⟩

/-- C10: for a dashboard URL that parses, `getBindingURL` returns
`<scheme>://<host>/api/bindings/<binding GUID>` from the parsed scheme and
host; two dashboard URLs whose parsed scheme and host agree give the same
result whatever else they contain; for a dashboard URL that does not parse it
returns the error "invalid dashboard URL from service instance: " followed by
the URL verbatim. -/
theorem C10_binding_url (Parse : String → Except String URL)
    (fullDashboardURL bindingGUID : String) :
    (∀ u, Parse fullDashboardURL = .ok u →
      getBindingURL Parse fullDashboardURL bindingGUID
        = .ok (u.Scheme ++ "://" ++ u.Host ++ "/api/bindings/" ++ bindingGUID))
    ∧ (∀ otherDashboardURL u v, Parse fullDashboardURL = .ok u →
      Parse otherDashboardURL = .ok v → u.Scheme = v.Scheme → u.Host = v.Host →
      getBindingURL Parse fullDashboardURL bindingGUID
        = getBindingURL Parse otherDashboardURL bindingGUID)
    ∧ (∀ e, Parse fullDashboardURL = .error e →
      getBindingURL Parse fullDashboardURL bindingGUID
        = .error ("invalid dashboard URL from service instance: " ++ fullDashboardURL)) := by
  refine ⟨?_, ?_, ?_⟩
  · intro u hparse
    unfold getBindingURL
    simp only [hparse]
  · intro other u v hu hv hscheme hhost
    unfold getBindingURL
    simp only [hu, hv, hscheme, hhost]
  · intro e hparse
    unfold getBindingURL
    simp only [hparse]

set_option maxRecDepth 100000 in
/-- C10, witness: the dashboard URL of the test-suite scenario, a second
dashboard URL on the same host with another path and a query, and the
dashboard URL `%%%` of the failure test. -/
theorem C10_binding_url_witness :
    getBindingURL testParse "http://autoscaling.example.com/something-that-doesnot-matter"
        "some-service-binding-guid"
      = .ok ("http" ++ "://" ++ "autoscaling.example.com" ++ "/api/bindings/"
          ++ "some-service-binding-guid")
    ∧ getBindingURL testParse "http://autoscaling.example.com/something-that-doesnot-matter"
        "some-service-binding-guid"
      = getBindingURL testParse "http://autoscaling.example.com/dashboard?tab=rules"
        "some-service-binding-guid"
    ∧ getBindingURL testParse "%%%" "some-service-binding-guid"
      = .error ("invalid dashboard URL from service instance: " ++ "%%%") :=
  ⟨(C10_binding_url testParse "http://autoscaling.example.com/something-that-doesnot-matter"
      "some-service-binding-guid").1
      ⟨"http", "", none, "autoscaling.example.com", "/something-that-doesnot-matter", "",
        false, false, "", "", ""⟩ (by rfl),
   (C10_binding_url testParse "http://autoscaling.example.com/something-that-doesnot-matter"
      "some-service-binding-guid").2.1
      "http://autoscaling.example.com/dashboard?tab=rules"
      ⟨"http", "", none, "autoscaling.example.com", "/something-that-doesnot-matter", "",
        false, false, "", "", ""⟩
      ⟨"http", "", none, "autoscaling.example.com", "/dashboard", "",
        false, false, "tab=rules", "", ""⟩ (by rfl) (by rfl) (by rfl) (by rfl),
   (C10_binding_url testParse "%%%" "some-service-binding-guid").2.2
      "invalid URL escape" (by rfl)⟩

/-! ## The typed JSON client -/

/-- A call of `JSONClient.Do` that hands `request` to the HTTP client: what
the call returns is decided by the answer of the HTTP client to `request`. -/
theorem JSONClient_Do_of_sent {τ α β : Type} (c : JSONClient τ)
    (Marshal : α → Except String String)
    (NewRequest : String → String → Option String → Except String Request)
    (Decode : String → β → β × Option String)
    (client : τ) (method url : String) (requestData : Option α)
    (responseData : Option β) (request : Request) :
    request ∈ (JSONClient.Do c Marshal NewRequest Decode client method url requestData
      responseData).sent →
    JSONClient.Do c Marshal NewRequest Decode client method url requestData responseData
      = match c.HTTPClient.Do client request with
        | (client, .failed err _) => ⟨some err, [request], none, responseData, client⟩
        | (client, .ok response) =>
          if response.StatusCode ≠ StatusOK then
            ⟨some ("unexpected response code: " ++ response.Status), [request], none,
              responseData, client⟩
          else
            match responseData with
            | some v =>
              match Decode response.Body v with
              | (v, some err) =>
                ⟨some ("couldn't parse response: " ++ err), [request], some response.Body,
                  some v, client⟩
              | (v, none) => ⟨none, [request], some response.Body, some v, client⟩
            | none => ⟨none, [request], none, none, client⟩ := by
  intro hsent
  generalize hr : JSONClient.Do c Marshal NewRequest Decode client method url requestData
    responseData = r at hsent ⊢
  unfold JSONClient.Do at hr
  cases hbody : requestBody Marshal requestData with
  | error e =>
    simp only [hbody] at hr
    subst hr
    simp at hsent
  | ok body =>
    simp only [hbody] at hr
    cases hnew : NewRequest method url body with
    | error e =>
      simp only [hnew] at hr
      subst hr
      simp at hsent
    | ok request0 =>
      simp only [hnew] at hr
      generalize hq1 : (if requestData.isSome = true then
          ({ request0 with
            Header := request0.Header.Set "Content-Type" "application/json" } : Request)
        else request0) = q1 at hr
      generalize hq2 : ({ q1 with
          Header := q1.Header.Set "Authorization" c.AccessToken } : Request) = q2 at hr
      have hq : request = q2 := by
        subst hr
        split at hsent
        · simpa using hsent
        · split at hsent
          · simpa using hsent
          · split at hsent
            · split at hsent
              · simpa using hsent
              · simpa using hsent
            · simpa using hsent
      rw [hq, ← hr]

/-- The request a call of `JSONClient.Do` hands to the HTTP client is the
request `http.NewRequest` built for the marshalled payload, with the header
`Content-Type` set when a payload was given and the header `Authorization`
set in every case. -/
theorem JSONClient_Do_sent_request {τ α β : Type} (c : JSONClient τ)
    (Marshal : α → Except String String)
    (NewRequest : String → String → Option String → Except String Request)
    (Decode : String → β → β × Option String)
    (client : τ) (method url : String) (requestData : Option α)
    (responseData : Option β) (request : Request) :
    request ∈ (JSONClient.Do c Marshal NewRequest Decode client method url requestData
      responseData).sent →
    ∃ body request0, requestBody Marshal requestData = .ok body
      ∧ NewRequest method url body = .ok request0
      ∧ request.Header
          = (if requestData.isSome = true then
              request0.Header.Set "Content-Type" "application/json"
            else request0.Header).Set "Authorization" c.AccessToken := by
  intro hsent
  generalize hr : JSONClient.Do c Marshal NewRequest Decode client method url requestData
    responseData = r at hsent
  unfold JSONClient.Do at hr
  cases hbody : requestBody Marshal requestData with
  | error e =>
    simp only [hbody] at hr
    subst hr
    simp at hsent
  | ok body =>
    simp only [hbody] at hr
    cases hnew : NewRequest method url body with
    | error e =>
      simp only [hnew] at hr
      subst hr
      simp at hsent
    | ok request0 =>
      simp only [hnew] at hr
      refine ⟨body, request0, rfl, hnew, ?_⟩
      generalize hq1 : (if requestData.isSome = true then
          ({ request0 with
            Header := request0.Header.Set "Content-Type" "application/json" } : Request)
        else request0) = q1 at hr
      generalize hq2 : ({ q1 with
          Header := q1.Header.Set "Authorization" c.AccessToken } : Request) = q2 at hr
      have hq : request = q2 := by
        subst hr
        split at hsent
        · simpa using hsent
        · split at hsent
          · simpa using hsent
          · split at hsent
            · split at hsent
              · simpa using hsent
              · simpa using hsent
            · simpa using hsent
      rw [hq, ← hq2, ← hq1]
      split <;> rfl

/-- C11: when the HTTP client answers the request with a response whose
status code is not 200 (and no error), `JSONClient.Do` returns "unexpected
response code: " followed by the status text of the response, the JSON
decoder is not run and the response variable is left as it was, whether
`responseData` is nil or not and whatever the body of the response is. -/
theorem C11_unexpected_status {τ α β : Type} (c : JSONClient τ)
    (Marshal : α → Except String String)
    (NewRequest : String → String → Option String → Except String Request)
    (Decode : String → β → β × Option String)
    (client client1 : τ) (method url : String) (requestData : Option α)
    (responseData : Option β) (request : Request) (response : Response)
    (hsent : request ∈ (JSONClient.Do c Marshal NewRequest Decode client method url
      requestData responseData).sent)
    (hanswer : c.HTTPClient.Do client request = (client1, .ok response))
    (hcode : response.StatusCode ≠ 200) :
    (JSONClient.Do c Marshal NewRequest Decode client method url requestData
        responseData).err = some ("unexpected response code: " ++ response.Status)
    ∧ (JSONClient.Do c Marshal NewRequest Decode client method url requestData
        responseData).decoded = none
    ∧ (JSONClient.Do c Marshal NewRequest Decode client method url requestData
        responseData).responseData = responseData := by
  rw [JSONClient_Do_of_sent c Marshal NewRequest Decode client method url requestData
    responseData request hsent, hanswer]
  simp only [StatusOK]
  rw [if_pos hcode]
  exact ⟨rfl, rfl, rfl⟩

/-- C12: when the HTTP client answers the request with a response of status
200 (and no error) and `responseData` is nil, `JSONClient.Do` returns no
error and the JSON decoder is not run, whatever the body of the response
is. -/
theorem C12_no_slot_no_decode {τ α β : Type} (c : JSONClient τ)
    (Marshal : α → Except String String)
    (NewRequest : String → String → Option String → Except String Request)
    (Decode : String → β → β × Option String)
    (client client1 : τ) (method url : String) (requestData : Option α)
    (request : Request) (response : Response)
    (hsent : request ∈ (JSONClient.Do c Marshal NewRequest Decode client method url
      requestData none).sent)
    (hanswer : c.HTTPClient.Do client request = (client1, .ok response))
    (hcode : response.StatusCode = 200) :
    (JSONClient.Do c Marshal NewRequest Decode client method url requestData none).err
        = none
    ∧ (JSONClient.Do c Marshal NewRequest Decode client method url requestData
        none).decoded = none := by
  rw [JSONClient_Do_of_sent c Marshal NewRequest Decode client method url requestData
    none request hsent, hanswer]
  simp only [StatusOK]
  rw [if_neg (by rw [hcode]; decide)]
  exact ⟨rfl, rfl⟩

set_option maxRecDepth 100000 in
/-- C11, witness: the test-suite's `418 TEAPOT!!` answer to a call without
response variable, and a `201 Created` answer with a body that is not JSON
to a call with a response variable that holds `old`. -/
theorem C11_unexpected_status_witness :
    ((JSONClient.Do (testJSONClient [.ok ⟨418, "418 TEAPOT!!", "some body"⟩])
        testMarshal testNewRequest testDecode 0 "GET" "some-url" none none).err
        = some ("unexpected response code: " ++ "418 TEAPOT!!")
      ∧ (JSONClient.Do (testJSONClient [.ok ⟨418, "418 TEAPOT!!", "some body"⟩])
        testMarshal testNewRequest testDecode 0 "GET" "some-url" none none).decoded = none
      ∧ (JSONClient.Do (testJSONClient [.ok ⟨418, "418 TEAPOT!!", "some body"⟩])
        testMarshal testNewRequest testDecode 0 "GET" "some-url" none none).responseData
        = none)
    ∧ ((JSONClient.Do (testJSONClient [.ok ⟨201, "201 Created", "\x7b\x7b\x7b"⟩])
        testMarshal testNewRequest testDecode 0 "POST" "/some/url" (some "payload")
        (some "old")).err = some ("unexpected response code: " ++ "201 Created")
      ∧ (JSONClient.Do (testJSONClient [.ok ⟨201, "201 Created", "\x7b\x7b\x7b"⟩])
        testMarshal testNewRequest testDecode 0 "POST" "/some/url" (some "payload")
        (some "old")).decoded = none
      ∧ (JSONClient.Do (testJSONClient [.ok ⟨201, "201 Created", "\x7b\x7b\x7b"⟩])
        testMarshal testNewRequest testDecode 0 "POST" "/some/url" (some "payload")
        (some "old")).responseData = some "old") :=
  ⟨C11_unexpected_status (testJSONClient [.ok ⟨418, "418 TEAPOT!!", "some body"⟩])
      testMarshal testNewRequest testDecode 0 1 "GET" "some-url" none none
      ⟨"GET", ⟨"", "", none, "", "some-url", "", false, false, "", "", ""⟩,
        Header.Set (fun _ => []) "Authorization" "some-token", none⟩
      ⟨418, "418 TEAPOT!!", "some body"⟩
      (List.mem_singleton.mpr rfl) (by rfl) (by decide),
   C11_unexpected_status (testJSONClient [.ok ⟨201, "201 Created", "\x7b\x7b\x7b"⟩])
      testMarshal testNewRequest testDecode 0 1 "POST" "/some/url" (some "payload")
      (some "old")
      ⟨"POST", ⟨"", "", none, "", "/some/url", "", false, false, "", "", ""⟩,
        Header.Set (Header.Set (fun _ => []) "Content-Type" "application/json")
          "Authorization" "some-token", some "payload"⟩
      ⟨201, "201 Created", "\x7b\x7b\x7b"⟩
      (List.mem_singleton.mpr rfl) (by rfl) (by decide)⟩

set_option maxRecDepth 100000 in
/-- C12, witness: the test "should not attempt to unmarshal the response":
status 200, the body `{{{`, no response variable. -/
theorem C12_no_slot_no_decode_witness :
    (JSONClient.Do (testJSONClient [.ok ⟨200, "200 OK", "\x7b\x7b\x7b"⟩])
        testMarshal testNewRequest testDecode 0 "GET" "http://example.com/some/url"
        none none).err = none
    ∧ (JSONClient.Do (testJSONClient [.ok ⟨200, "200 OK", "\x7b\x7b\x7b"⟩])
        testMarshal testNewRequest testDecode 0 "GET" "http://example.com/some/url"
        none none).decoded = none :=
  C12_no_slot_no_decode (testJSONClient [.ok ⟨200, "200 OK", "\x7b\x7b\x7b"⟩])
    testMarshal testNewRequest testDecode 0 1 "GET" "http://example.com/some/url" none
    ⟨"GET", ⟨"http", "", none, "example.com", "/some/url", "", false, false, "", "", ""⟩,
      Header.Set (fun _ => []) "Authorization" "some-token", none⟩
    ⟨200, "200 OK", "\x7b\x7b\x7b"⟩
    (List.mem_singleton.mpr rfl) (by rfl) (by rfl)

/-- C13: every request `JSONClient.Do` hands to the HTTP client has the single
`Authorization` value `AccessToken`, as configured; it has the single
`Content-Type` value `application/json` when a payload was given; and when no
payload was given it has no `Content-Type` value at all, `http.NewRequest`
returning a request without one. -/
theorem C13_request_headers {τ α β : Type} (c : JSONClient τ)
    (Marshal : α → Except String String)
    (NewRequest : String → String → Option String → Except String Request)
    (Decode : String → β → β × Option String)
    (client : τ) (method url : String) (requestData : Option α)
    (responseData : Option β) (request : Request)
    (hsent : request ∈ (JSONClient.Do c Marshal NewRequest Decode client method url
      requestData responseData).sent)
    (hfresh : ∀ body request0, NewRequest method url body = .ok request0 →
      request0.Header.Values "Content-Type" = []) :
    request.Header.Values "Authorization" = [c.AccessToken]
    ∧ (request.Header.Values "Content-Type" = ["application/json"]
        ↔ requestData.isSome = true)
    ∧ (requestData = none → request.Header.Values "Content-Type" = []) := by
  obtain ⟨body, request0, _, hnew, hheader⟩ :=
    JSONClient_Do_sent_request c Marshal NewRequest Decode client method url requestData
      responseData request hsent
  have h0 := hfresh body request0 hnew
  have hne : ("Content-Type" : String) ≠ "Authorization" := by decide
  rw [hheader]
  cases requestData with
  | none =>
    simp only [Option.isSome_none, Bool.false_eq_true, if_false, Header.Values, Header.Set,
      if_pos, if_neg hne]
    simp only [Header.Values] at h0
    simp [h0]
  | some data =>
    simp [Header.Values, Header.Set, hne]

set_option maxRecDepth 100000 in
/-- C13, witness: the test-suite's POST with a payload and its GET without
one, both with the token `some-token`. -/
theorem C13_request_headers_witness :
    (Header.Values (Header.Set (Header.Set (fun _ => []) "Content-Type" "application/json")
        "Authorization" "some-token") "Authorization" = ["some-token"]
      ∧ (Header.Values (Header.Set (Header.Set (fun _ => []) "Content-Type" "application/json")
          "Authorization" "some-token") "Content-Type" = ["application/json"]
        ↔ (some "payload").isSome = true)
      ∧ ((some "payload" : Option String) = none →
        Header.Values (Header.Set (Header.Set (fun _ => []) "Content-Type" "application/json")
          "Authorization" "some-token") "Content-Type" = []))
    ∧ (Header.Values (Header.Set (fun _ => []) "Authorization" "some-token") "Authorization"
        = ["some-token"]
      ∧ (Header.Values (Header.Set (fun _ => []) "Authorization" "some-token") "Content-Type"
          = ["application/json"] ↔ (none : Option String).isSome = true)
      ∧ ((none : Option String) = none →
        Header.Values (Header.Set (fun _ => []) "Authorization" "some-token") "Content-Type"
          = [])) :=
  ⟨@C13_request_headers Nat String String
      (testJSONClient [.ok ⟨200, "200 OK", "some body"⟩])
      testMarshal testNewRequest testDecode 0 "POST" "/some/url" (some "payload") none
      ⟨"POST", ⟨"", "", none, "", "/some/url", "", false, false, "", "", ""⟩,
        Header.Set (Header.Set (fun _ => []) "Content-Type" "application/json")
          "Authorization" "some-token", some "payload"⟩
      (List.mem_singleton.mpr rfl)
      (by
        intro body request0 h
        simp only [testNewRequest] at h
        simp at h
        rw [← h]
        rfl),
   @C13_request_headers Nat String String
      (testJSONClient [.ok ⟨200, "200 OK", "some body"⟩])
      testMarshal testNewRequest testDecode 0 "GET" "http://example.com/some/url" none none
      ⟨"GET", ⟨"http", "", none, "example.com", "/some/url", "", false, false, "", "", ""⟩,
        Header.Set (fun _ => []) "Authorization" "some-token", none⟩
      (List.mem_singleton.mpr rfl)
      (by
        intro body request0 h
        simp only [testNewRequest] at h
        simp at h
        rw [← h]
        rfl)⟩

/-- C14: when the HTTP client answers the request with an error `e`,
`JSONClient.Do` returns `e`, whatever response came with the error, without
running the JSON decoder and leaving the response variable as it was; and
when `http.NewRequest` fails, or marshalling the payload fails, it returns
that error and hands no request to the HTTP client. -/
theorem C14_transport_and_request_errors {τ α β : Type} (c : JSONClient τ)
    (Marshal : α → Except String String)
    (NewRequest : String → String → Option String → Except String Request)
    (Decode : String → β → β × Option String)
    (client : τ) (method url : String) (requestData : Option α)
    (responseData : Option β) :
    (∀ (request : Request) (client1 : τ) (e : String) (response : Option Response),
      request ∈ (JSONClient.Do c Marshal NewRequest Decode client method url requestData
        responseData).sent →
      c.HTTPClient.Do client request = (client1, .failed e response) →
      JSONClient.Do c Marshal NewRequest Decode client method url requestData responseData
        = ⟨some e, [request], none, responseData, client1⟩)
    ∧ (∀ (body : Option String) (e : String),
      requestBody Marshal requestData = .ok body →
      NewRequest method url body = .error e →
      JSONClient.Do c Marshal NewRequest Decode client method url requestData responseData
        = ⟨some e, [], none, responseData, client⟩)
    ∧ (∀ (e : String),
      requestBody Marshal requestData = .error e →
      JSONClient.Do c Marshal NewRequest Decode client method url requestData responseData
        = ⟨some e, [], none, responseData, client⟩) := by
  refine ⟨?_, ?_, ?_⟩
  · intro request client1 e response hsent hanswer
    rw [JSONClient_Do_of_sent c Marshal NewRequest Decode client method url requestData
      responseData request hsent, hanswer]
  · intro body e hbody hnew
    unfold JSONClient.Do
    simp only [hbody, hnew]
  · intro e hbody
    unfold JSONClient.Do
    simp only [hbody]

set_option maxRecDepth 100000 in
/-- C14, witness: the test "when the http client errors", where the HTTP
client returns the error `some error` next to a 200 response, and the test
"when the request is invalid" with the URL `http://example.com/%%%`. -/
theorem C14_transport_and_request_errors_witness :
    (JSONClient.Do
        (testJSONClient [.failed "some error" (some ⟨200, "200 OK", "some body"⟩)])
        testMarshal testNewRequest testDecode 0 "GET" "some-url" none (some "old")).err
      = some "some error"
    ∧ (JSONClient.Do
        (testJSONClient [.failed "some error" (some ⟨200, "200 OK", "some body"⟩)])
        testMarshal testNewRequest testDecode 0 "GET" "some-url" none (some "old")).decoded
      = none
    ∧ (JSONClient.Do (testJSONClient [.ok ⟨200, "200 OK", "some body"⟩])
        testMarshal testNewRequest testDecode 0 "GET" "http://example.com/%%%" none
        (none : Option String)).err = some "invalid URL escape"
    ∧ (JSONClient.Do (testJSONClient [.ok ⟨200, "200 OK", "some body"⟩])
        testMarshal testNewRequest testDecode 0 "GET" "http://example.com/%%%" none
        (none : Option String)).sent.length = 0 :=
  ⟨congrArg DoResult.err
      ((C14_transport_and_request_errors
        (testJSONClient [.failed "some error" (some ⟨200, "200 OK", "some body"⟩)])
        testMarshal testNewRequest testDecode 0 "GET" "some-url" none (some "old")).1
        ⟨"GET", ⟨"", "", none, "", "some-url", "", false, false, "", "", ""⟩,
          Header.Set (fun _ => []) "Authorization" "some-token", none⟩
        1 "some error" (some ⟨200, "200 OK", "some body"⟩)
        (List.mem_singleton.mpr rfl) (by rfl)),
   congrArg DoResult.decoded
      ((C14_transport_and_request_errors
        (testJSONClient [.failed "some error" (some ⟨200, "200 OK", "some body"⟩)])
        testMarshal testNewRequest testDecode 0 "GET" "some-url" none (some "old")).1
        ⟨"GET", ⟨"", "", none, "", "some-url", "", false, false, "", "", ""⟩,
          Header.Set (fun _ => []) "Authorization" "some-token", none⟩
        1 "some error" (some ⟨200, "200 OK", "some body"⟩)
        (List.mem_singleton.mpr rfl) (by rfl)),
   congrArg DoResult.err
      ((C14_transport_and_request_errors
        (testJSONClient [.ok ⟨200, "200 OK", "some body"⟩])
        testMarshal testNewRequest testDecode 0 "GET" "http://example.com/%%%" none
        (none : Option String)).2.1 none "invalid URL escape" (by rfl) (by rfl)),
   congrArg (fun r => r.sent.length)
      ((C14_transport_and_request_errors
        (testJSONClient [.ok ⟨200, "200 OK", "some body"⟩])
        testMarshal testNewRequest testDecode 0 "GET" "http://example.com/%%%" none
        (none : Option String)).2.1 none "invalid URL escape" (by rfl) (by rfl))⟩

set_option maxRecDepth 100000 in
/-- C15, counterexample: the control plane answers with one resource whose
binding identifier is the empty string; the run returns no error, and its
second call is a GET of the binding URL with an empty identifier. -/
theorem C15_empty_guid_counterexample :
    (RunWithError testParse
        (testDependencies
          [ ⟨none, ⟨[⟨⟨""⟩⟩]⟩, ⟨"", 0, 0, 0, 0, false⟩⟩,
            ⟨none, ⟨[]⟩, ⟨"", 3, 7, 20, 80, false⟩⟩ ])
        0 ⟨9, 30, 10, 90⟩).err = none
    ∧ (RunWithError testParse
        (testDependencies
          [ ⟨none, ⟨[⟨⟨""⟩⟩]⟩, ⟨"", 0, 0, 0, 0, false⟩⟩,
            ⟨none, ⟨[]⟩, ⟨"", 3, 7, 20, 80, false⟩⟩ ])
        0 ⟨9, 30, 10, 90⟩).calls.get? 1
      = some ⟨"GET", "http://autoscaling.example.com/api/bindings/", none,
          .autoscalingBinding⟩ := by
  refine ⟨?_, ?_⟩ <;> rfl

/-- C15, amended: when the control-plane GET succeeds with exactly one
resource whose binding identifier is the empty string and the dashboard URL
parses, the run does not stop there: its first two calls are the
control-plane GET and a GET of `<scheme>://<host>/api/bindings/`, the binding
URL with an empty identifier. -/
theorem C15_empty_guid_goes_on {σ : Type} (Parse : String → Except String URL)
    (deps : CLIDependencies σ) (client : σ) (flags : Flags)
    (ccURL : String) (s1 : σ) (cc : CCResponse) (u : URL)
    (h0 : getCCQueryURL Parse deps.APIEndpoint deps.App.Guid deps.Service.Guid = .ok ccURL)
    (h1 : deps.JSONClient.Do client "GET" ccURL none .ccResponse = (s1, none, cc))
    (h2 : cc.Resources = [⟨⟨""⟩⟩])
    (hdash : Parse deps.Service.DashboardUrl = .ok u) :
    (RunWithError Parse deps client flags).calls.take 2
      = [⟨"GET", ccURL, none, .ccResponse⟩,
         ⟨"GET", u.Scheme ++ "://" ++ u.Host ++ "/api/bindings/", none,
          .autoscalingBinding⟩] := by
  have h3 : getBindingURL Parse deps.Service.DashboardUrl
      (⟨⟨""⟩⟩ : CCResource).Metadata.GUID
      = .ok (u.Scheme ++ "://" ++ u.Host ++ "/api/bindings/") := by
    unfold getBindingURL
    simp only [hdash]
    have hempty : ∀ s : String, s ++ "" = s := by
      intro s
      apply String.ext
      simp [String.data_append]
    rw [hempty]
  rcases hget : deps.JSONClient.Do s1 "GET" (u.Scheme ++ "://" ++ u.Host ++ "/api/bindings/")
    none .autoscalingBinding with ⟨s2, err, fetched⟩
  cases err with
  | some e =>
    obtain ⟨rs⟩ := cc
    simp only at h2
    subst h2
    unfold RunWithError
    simp only [h0, h1]
    simp [h3, hget]
  | none =>
    rw [RunWithError_of_fetch Parse deps client flags ccURL _ s1 s2 cc ⟨⟨""⟩⟩ fetched
      h0 h1 h2 h3 hget]
    split
    · rfl
    · split <;> rfl

set_option maxRecDepth 100000 in
/-- C15, witness: the test-suite scenario with a control-plane answer whose
only resource has no binding identifier. -/
theorem C15_empty_guid_goes_on_witness :
    (RunWithError testParse
        (testDependencies
          [ ⟨none, ⟨[⟨⟨""⟩⟩]⟩, ⟨"", 0, 0, 0, 0, false⟩⟩,
            ⟨none, ⟨[]⟩, ⟨"", 3, 7, 20, 80, false⟩⟩ ])
        0 ⟨9, 30, 10, 90⟩).calls.take 2
      = [⟨"GET", testCCURL, none, .ccResponse⟩,
         ⟨"GET", "http" ++ "://" ++ "autoscaling.example.com" ++ "/api/bindings/", none,
          .autoscalingBinding⟩] :=
  C15_empty_guid_goes_on testParse
    (testDependencies
      [ ⟨none, ⟨[⟨⟨""⟩⟩]⟩, ⟨"", 0, 0, 0, 0, false⟩⟩,
        ⟨none, ⟨[]⟩, ⟨"", 3, 7, 20, 80, false⟩⟩ ])
    0 ⟨9, 30, 10, 90⟩ testCCURL 1 ⟨[⟨⟨""⟩⟩]⟩
    ⟨"http", "", none, "autoscaling.example.com", "/something-that-doesnot-matter", "",
      false, false, "", "", ""⟩
    (by rfl) (by rfl) (by rfl) (by rfl)

end Plugin
